import Mathlib

/-!
Verification development for the ai-marketing-toolkit analytics core.

The development shallowly embeds the two analytic components of the
repository — the attribution model builder (`src/attribution_models.py`)
and the ROI tracker (`src/roi_tracker.py`) — and proves properties of the
embedded definitions.

Modelling conventions:
* Python floats are idealised as real numbers (`ℝ`) in the attribution
  module, and as rationals (`ℚ`) in the tracker module (whose alert
  arithmetic is entirely rational); the IEEE special values produced by
  `float('inf')` and NumPy are modelled explicitly where they can occur.
* Python dictionaries keyed by channel/campaign are modelled as
  `Option`-valued functions (`none` = key absent), so `d.get(k, 0)`
  becomes `(d k).getD 0` and `d[k] = v` becomes a pointwise update.
* `datetime` values are modelled as day counts: integers in the
  attribution module (where only `(a - b).days` is used) and rationals
  in the tracker (where only order comparisons with day offsets occur).
* Logging calls and formatted report strings are presentation-only and
  are not modelled; neither are the `datetime.now()` fields that merely
  stamp a result object.
-/

namespace AIMarketing

noncomputable section

/-- Embedding of the `AttributionModel` enum of `attribution_models.py`. -/
inductive AttributionModel where
  | FIRST_TOUCH | LAST_TOUCH | LINEAR | TIME_DECAY
  | POSITION_BASED | DATA_DRIVEN | MARKOV_CHAIN | SHAPLEY_VALUE
deriving DecidableEq

/-- Embedding of the `ChannelType` enum of `attribution_models.py`. -/
inductive ChannelType where
  | PAID_SEARCH | ORGANIC_SEARCH | SOCIAL_MEDIA | EMAIL | DISPLAY
  | VIDEO | AFFILIATE | DIRECT | REFERRAL | PR
deriving DecidableEq

/-- Enumeration of every `ChannelType` constructor, used to express sums
over the (finitely many) channels of a channel-keyed dictionary. -/
def channelList : List ChannelType :=
  [.PAID_SEARCH, .ORGANIC_SEARCH, .SOCIAL_MEDIA, .EMAIL, .DISPLAY,
   .VIDEO, .AFFILIATE, .DIRECT, .REFERRAL, .PR]

/-- Embedding of the `TouchPoint` dataclass: one customer touchpoint.
`timestamp` is a day count (only day differences are ever taken). -/
structure TouchPoint where
  timestamp : ℤ
  channel : ChannelType
  campaign : String
  cost : ℝ
  impressions : ℤ
  clicks : ℤ
  customerId : String
  touchpointValue : ℝ := 0
  attributionWeight : ℝ := 0

/-- Embedding of the `CustomerJourney` dataclass. -/
structure CustomerJourney where
  customerId : String
  touchpoints : List TouchPoint
  conversionTimestamp : Option ℤ
  conversionValue : ℝ
  journeyLengthDays : ℤ
  isConverted : Bool

/-- Embedding of `CustomerJourney.unique_channels`: `list(set(...))` of the
touchpoint channels, modelled as the deduplicated channel list (the Python
set iteration order is unspecified; only membership and cardinality of this
list are ever used by the algorithms). -/
def CustomerJourney.uniqueChannels (j : CustomerJourney) : List ChannelType :=
  (j.touchpoints.map (fun tp => tp.channel)).dedup

/-- A channel-keyed Python dictionary with numeric values: `none` when the
key is absent. -/
abbrev ChMap := ChannelType → Option ℝ

/-- A campaign-keyed Python dictionary with numeric values. -/
abbrev CampMap := String → Option ℝ

/-- Embedding of `d.get(k, 0)`. -/
def dget {α : Type} (d : α → Option ℝ) (k : α) : ℝ := (d k).getD 0

/-- Embedding of `d[k] = d.get(k, 0) + v`. -/
def dinc {α : Type} [DecidableEq α] (d : α → Option ℝ) (k : α) (v : ℝ) :
    α → Option ℝ :=
  fun x => if x = k then some (dget d k + v) else d x

/-- Embedding of the dictionary comprehension
`{k: v/total for k, v in d.items()}`. -/
def dscale {α : Type} (d : α → Option ℝ) (total : ℝ) : α → Option ℝ :=
  fun x => (d x).map (fun v => v / total)

/-- Folding a list of `(key, credit)` pairs into a dictionary, one
`d[k] = d.get(k, 0) + credit` update per pair: this is the body of each
attribution loop. -/
def creditAll {α : Type} [DecidableEq α] (d : α → Option ℝ)
    (l : List (α × ℝ)) : α → Option ℝ :=
  l.foldl (fun d p => dinc d p.1 p.2) d

/-- Sum of the values of a channel-keyed dictionary (absent keys
contribute 0, exactly as in `sum(d.values())`). -/
def chSum (d : ChMap) : ℝ := (channelList.map (dget d)).sum

/-- Embedding of the `AttributionResult` dataclass.  The `timestamp`
field (a `datetime.now()` stamp) is presentation-only and omitted. -/
structure AttributionResult where
  modelType : AttributionModel
  channelAttribution : ChMap
  campaignAttribution : CampMap
  roiByChannel : ChannelType → Option ℝ
  confidenceIntervals : ChannelType → Option (ℝ × ℝ)
  modelAccuracy : ℝ
  statisticalSignificance : ℝ

/-- Accumulator of one rule-based attribution loop: the
`channel_attribution` and `campaign_attribution` dictionaries together
with `total_value`. -/
structure AttrAcc where
  ch : ChMap
  camp : CampMap
  total : ℝ

/-- Initial accumulator: two empty dictionaries and `total_value = 0`. -/
def emptyAcc : AttrAcc := ⟨fun _ => none, fun _ => none, 0⟩

/-- One iteration of a rule-based attribution loop, parameterised by the
model's per-journey credit rule.  `creditsOf j = none` means the journey
fails the model's guard and is skipped; `some (cc, pc)` gives the list of
`d[k] += credit` updates the loop body performs on the channel and
campaign dictionaries, after which `total_value += j.conversion_value`. -/
def attrStep (creditsOf : CustomerJourney →
    Option (List (ChannelType × ℝ) × List (String × ℝ)))
    (acc : AttrAcc) (j : CustomerJourney) : AttrAcc :=
  match creditsOf j with
  | none => acc
  | some (cc, pc) =>
      ⟨creditAll acc.ch cc, creditAll acc.camp pc, acc.total + j.conversionValue⟩

/-- The main loop of a rule-based attribution model, starting from a given
initial accumulator (the empty dictionaries for every model except
Shapley, which pre-seeds `channel_attribution` with zeros). -/
def attrLoop (creditsOf : CustomerJourney →
    Option (List (ChannelType × ℝ) × List (String × ℝ)))
    (init : AttrAcc) (journeys : List CustomerJourney) : AttrAcc :=
  journeys.foldl (attrStep creditsOf) init

/-- Embedding of `_calculate_roi_by_channel`'s per-channel cost
accumulation: the summed cost of every touchpoint with the given channel. -/
def channelCost (journeys : List CustomerJourney) (c : ChannelType) : ℝ :=
  (((journeys.flatMap (fun j => j.touchpoints)).filter
      (fun tp => tp.channel = c)).map (fun tp => tp.cost)).sum

/-- Embedding of `_calculate_roi_by_channel`'s per-channel attributed
revenue: each touchpoint of a converted journey with the given channel
contributes `conversion_value * channel_attribution.get(channel, 0)`. -/
def channelRevenue (journeys : List CustomerJourney) (ch : ChMap)
    (c : ChannelType) : ℝ :=
  ((journeys.filter (fun j => j.isConverted)).map (fun j =>
    ((j.touchpoints.filter (fun tp => tp.channel = c)).length : ℝ)
      * (j.conversionValue * dget ch c))).sum

/-- Embedding of `_calculate_roi_by_channel`: keyed by the keys of the
channel-attribution dictionary; `(revenue - cost) / cost`, or 0 when the
channel's cost is not positive. -/
def calculateRoiByChannel (journeys : List CustomerJourney) (ch : ChMap) :
    ChannelType → Option ℝ :=
  fun c =>
    if (ch c).isSome then
      some (if 0 < channelCost journeys c then
        (channelRevenue journeys ch c - channelCost journeys c)
          / channelCost journeys c
      else 0)
    else none

/-- Population standard deviation of a list of reals (`np.std`). -/
def npStd (l : List ℝ) : ℝ :=
  Real.sqrt ((l.map (fun x =>
    (x - l.sum / l.length) * (x - l.sum / l.length))).sum / l.length)

/-- Embedding of `_calculate_confidence_intervals`: for each attributed
channel, a normal-approximation interval scaled by the attribution share
when more than one converted journey contains the channel, otherwise the
fixed `(0.5x, 1.5x)` band. -/
def calculateConfidenceIntervals (journeys : List CustomerJourney)
    (ch : ChMap) : ChannelType → Option (ℝ × ℝ) :=
  fun c =>
    (ch c).map (fun a =>
      let vals := ((journeys.filter (fun j =>
        c ∈ j.uniqueChannels ∧ j.isConverted)).map
          (fun j => j.conversionValue))
      if 1 < vals.length then
        let moe := 1.96 * (npStd vals / Real.sqrt vals.length)
        (max 0 (a - moe * a), a + moe * a)
      else (a * 0.5, a * 1.5))

/-- Normalisation and packaging shared by the rule-based models: divide
both dictionaries by `total_value` when it is positive, then attach the
derived ROI and confidence-interval maps and the model's hardcoded
accuracy/significance constants. -/
def finishAttr (model : AttributionModel) (journeys : List CustomerJourney)
    (acc : AttrAcc) (accuracy significance : ℝ) : AttributionResult :=
  let ch := if 0 < acc.total then dscale acc.ch acc.total else acc.ch
  let camp := if 0 < acc.total then dscale acc.camp acc.total else acc.camp
  ⟨model, ch, camp, calculateRoiByChannel journeys ch,
    calculateConfidenceIntervals journeys ch, accuracy, significance⟩

/-- Per-journey credits of `_first_touch_attribution`: if the journey is
converted and has touchpoints, 100% of the conversion value goes to the
first touchpoint's channel and campaign. -/
def firstTouchCredits (j : CustomerJourney) :
    Option (List (ChannelType × ℝ) × List (String × ℝ)) :=
  if j.isConverted then
    match j.touchpoints with
    | [] => none
    | first :: _ =>
        some ([(first.channel, j.conversionValue)],
              [(first.campaign, j.conversionValue)])
  else none

/-- Embedding of `_first_touch_attribution`. -/
def firstTouchAttribution (journeys : List CustomerJourney) :
    AttributionResult :=
  finishAttr .FIRST_TOUCH journeys
    (attrLoop firstTouchCredits emptyAcc journeys) 0.75 0.8

/-- Per-journey credits of `_last_touch_attribution`: 100% of the
conversion value to the last touchpoint. -/
def lastTouchCredits (j : CustomerJourney) :
    Option (List (ChannelType × ℝ) × List (String × ℝ)) :=
  if j.isConverted then
    match j.touchpoints with
    | [] => none
    | first :: rest =>
        let last := (first :: rest).getLast (List.cons_ne_nil first rest)
        some ([(last.channel, j.conversionValue)],
              [(last.campaign, j.conversionValue)])
  else none

/-- Embedding of `_last_touch_attribution`. -/
def lastTouchAttribution (journeys : List CustomerJourney) :
    AttributionResult :=
  finishAttr .LAST_TOUCH journeys
    (attrLoop lastTouchCredits emptyAcc journeys) 0.75 0.8

/-- Per-journey credits of `_linear_attribution`: every touchpoint
receives `conversion_value / len(touchpoints)`. -/
def linearCredits (j : CustomerJourney) :
    Option (List (ChannelType × ℝ) × List (String × ℝ)) :=
  if j.isConverted then
    match j.touchpoints with
    | [] => none
    | tps@(_ :: _) =>
        let credit := j.conversionValue / tps.length
        some (tps.map (fun tp => (tp.channel, credit)),
              tps.map (fun tp => (tp.campaign, credit)))
  else none

/-- Embedding of `_linear_attribution`. -/
def linearAttribution (journeys : List CustomerJourney) :
    AttributionResult :=
  finishAttr .LINEAR journeys
    (attrLoop linearCredits emptyAcc journeys) 0.82 0.85

/-- Per-journey credits of `_time_decay_attribution`: touchpoint `i`
carries weight `exp(-decay_factor * days_before_conversion_i)` and
receives `conversion_value * weight_i / total_weight`; the journey is
skipped unless it is converted with touchpoints and a conversion
timestamp, and no credit is assigned when the total weight is not
positive (the `if total_weight > 0` guard of the source). -/
def timeDecayCredits (decayFactor : ℝ) (j : CustomerJourney) :
    Option (List (ChannelType × ℝ) × List (String × ℝ)) :=
  if j.isConverted then
    match j.touchpoints with
    | [] => none
    | tps@(_ :: _) =>
        match j.conversionTimestamp with
        | none => none
        | some ct =>
            let weights := tps.map (fun tp =>
              Real.exp (-(decayFactor * ((ct - tp.timestamp : ℤ) : ℝ))))
            let totalWeight := weights.sum
            if 0 < totalWeight then
              some ((tps.zip weights).map (fun p =>
                      (p.1.channel, j.conversionValue * (p.2 / totalWeight))),
                    (tps.zip weights).map (fun p =>
                      (p.1.campaign, j.conversionValue * (p.2 / totalWeight))))
            else some ([], [])
  else none

/-- Embedding of `_time_decay_attribution`. -/
def timeDecayAttribution (journeys : List CustomerJourney)
    (decayFactor : ℝ) : AttributionResult :=
  finishAttr .TIME_DECAY journeys
    (attrLoop (timeDecayCredits decayFactor) emptyAcc journeys) 0.85 0.88

/-- Per-journey credits of `_position_based_attribution`: 100% to a single
touch; a 50/50 first/last split for two touches; otherwise 40% first, 40%
last and 20% split equally over the middle touches. -/
def positionBasedCredits (j : CustomerJourney) :
    Option (List (ChannelType × ℝ) × List (String × ℝ)) :=
  if j.isConverted then
    match j.touchpoints with
    | [] => none
    | [touch] =>
        some ([(touch.channel, j.conversionValue)],
              [(touch.campaign, j.conversionValue)])
    | [first, last] =>
        some ([(first.channel, j.conversionValue * 0.5),
               (last.channel, j.conversionValue * 0.5)],
              [(first.campaign, j.conversionValue * 0.5),
               (last.campaign, j.conversionValue * 0.5)])
    | first :: second :: third :: rest =>
        let tps := second :: third :: rest
        let last := tps.getLast (List.cons_ne_nil second (third :: rest))
        let middle := tps.dropLast
        let firstCredit := j.conversionValue * 0.4
        let lastCredit := j.conversionValue * 0.4
        let middleCredit := j.conversionValue * 0.2 / middle.length
        some ((first.channel, firstCredit)
                :: middle.map (fun tp => (tp.channel, middleCredit))
                ++ [(last.channel, lastCredit)],
              (first.campaign, firstCredit)
                :: middle.map (fun tp => (tp.campaign, middleCredit))
                ++ [(last.campaign, lastCredit)])
  else none

/-- Embedding of `_position_based_attribution`. -/
def positionBasedAttribution (journeys : List CustomerJourney) :
    AttributionResult :=
  finishAttr .POSITION_BASED journeys
    (attrLoop positionBasedCredits emptyAcc journeys) 0.83 0.86

/-- The set of channels occurring in any journey's touchpoints, as a
deduplicated list (`all_channels` in the source). -/
def allChannels (journeys : List CustomerJourney) : List ChannelType :=
  (journeys.flatMap (fun j => j.touchpoints.map (fun tp => tp.channel))).dedup

/-- Number of converted journeys (`total_conversions` in
`_markov_chain_attribution`). -/
def totalConversions (journeys : List CustomerJourney) : ℕ :=
  (journeys.filter (fun j => j.isConverted)).length

/-- The journeys not containing a given channel
(`journeys_without_channel`). -/
def journeysWithout (journeys : List CustomerJourney) (c : ChannelType) :
    List CustomerJourney :=
  journeys.filter (fun j => decide (c ∉ j.uniqueChannels))

/-- Embedding of the simplified removal-effect channel dictionary of
`_markov_chain_attribution`: a channel gets an entry only when it occurs
in some journey AND some journey lacks it, and the entry is
`max(0, total_conversions - conversions_without_channel)`.  (The
first-order transition-count table the source also builds feeds no output
and is not modelled.) -/
def markovChannelRaw (journeys : List CustomerJourney) : ChMap :=
  fun c =>
    if c ∈ allChannels journeys ∧ (journeysWithout journeys c).isEmpty = false
    then
      some (max 0 ((totalConversions journeys : ℝ)
        - ((journeysWithout journeys c).filter
            (fun j => j.isConverted)).length))
    else none

/-- `total_effect = sum(channel_attribution.values())` in
`_markov_chain_attribution`. -/
def markovTotalEffect (journeys : List CustomerJourney) : ℝ :=
  chSum (markovChannelRaw journeys)

/-- The campaign dictionary of `_markov_chain_attribution` before
normalisation: each touchpoint of a converted journey adds 1 to its
campaign. -/
def markovCampaignRaw (journeys : List CustomerJourney) : CampMap :=
  journeys.foldl (fun d j =>
    if j.isConverted then
      creditAll d (j.touchpoints.map (fun tp => (tp.campaign, (1 : ℝ))))
    else d) (fun _ => none)

/-- `total_campaign_value` of `_markov_chain_attribution`: the campaign
dictionary's values sum, which equals one unit per touchpoint of each
converted journey. -/
def markovTotalCampaignValue (journeys : List CustomerJourney) : ℝ :=
  ((journeys.filter (fun j => j.isConverted)).map
    (fun j => (j.touchpoints.length : ℝ))).sum

/-- Embedding of `_markov_chain_attribution`. -/
def markovChainAttribution (journeys : List CustomerJourney) :
    AttributionResult :=
  let raw := markovChannelRaw journeys
  let ch := if 0 < markovTotalEffect journeys then
    dscale raw (markovTotalEffect journeys) else raw
  let campRaw := markovCampaignRaw journeys
  let camp := if 0 < markovTotalCampaignValue journeys then
    dscale campRaw (markovTotalCampaignValue journeys) else campRaw
  ⟨.MARKOV_CHAIN, ch, camp, calculateRoiByChannel journeys ch,
    calculateConfidenceIntervals journeys ch, 0.88, 0.90⟩

/-- Per-journey credits of `_shapley_value_attribution`: each converted
journey splits its conversion value equally among its distinct channels;
on the campaign side every touchpoint of a converted journey adds the
full conversion value to its campaign. -/
def shapleyCredits (j : CustomerJourney) :
    Option (List (ChannelType × ℝ) × List (String × ℝ)) :=
  if j.isConverted then
    some (j.uniqueChannels.map (fun c =>
            (c, j.conversionValue / j.uniqueChannels.length)),
          j.touchpoints.map (fun tp => (tp.campaign, j.conversionValue)))
  else none

/-- `total_campaign_value` of `_shapley_value_attribution`: incremented by
the conversion value once per touchpoint of each converted journey. -/
def shapleyTotalCampaignValue (journeys : List CustomerJourney) : ℝ :=
  ((journeys.filter (fun j => j.isConverted)).map
    (fun j => j.conversionValue * (j.touchpoints.length : ℝ))).sum

/-- Embedding of `_shapley_value_attribution`.  The channel dictionary is
pre-seeded with an explicit 0.0 for every occurring channel; channel
shares are normalised by the total conversion value and campaign shares
by `total_campaign_value`. -/
def shapleyValueAttribution (journeys : List CustomerJourney) :
    AttributionResult :=
  let init : AttrAcc :=
    ⟨fun c => if c ∈ allChannels journeys then some 0 else none,
     fun _ => none, 0⟩
  let acc := attrLoop shapleyCredits init journeys
  let ch := if 0 < acc.total then dscale acc.ch acc.total else acc.ch
  let camp := if 0 < shapleyTotalCampaignValue journeys then
    dscale acc.camp (shapleyTotalCampaignValue journeys) else acc.camp
  ⟨.SHAPLEY_VALUE, ch, camp, calculateRoiByChannel journeys ch,
    calculateConfidenceIntervals journeys ch, 0.91, 0.93⟩

/-- Placeholder for the `len(X) >= 100` branch of
`_data_driven_attribution`, which fits a scikit-learn logistic regression
on the journey features; an iterative floating-point solver has no
shallow embedding, so that branch is represented by this fixed value.  No
theorem in this file depends on it: every theorem touching data-driven
attribution supplies fewer than 100 journeys and therefore exercises only
the documented fallback branch below. -/
def dataDrivenMlBranch : AttributionResult :=
  ⟨.DATA_DRIVEN, fun _ => none, fun _ => none, fun _ => none,
    fun _ => none, 0, 0.92⟩

/-- Embedding of `_data_driven_attribution`: with fewer than 100 journeys
(`len(X) < 100`, and `_prepare_ml_data` yields one row per journey) the
source logs a warning and falls back to `_position_based_attribution`. -/
def dataDrivenAttribution (journeys : List CustomerJourney) :
    AttributionResult :=
  if journeys.length < 100 then positionBasedAttribution journeys
  else dataDrivenMlBranch

/-- Embedding of `build_attribution_model`: dispatch on the model tag.
The trailing `raise ValueError` branch of the source is unreachable for a
well-typed `AttributionModel` argument, so the embedding is total. -/
def buildAttributionModel (journeys : List CustomerJourney)
    (modelType : AttributionModel) (timeDecayFactor : ℝ) :
    AttributionResult :=
  match modelType with
  | .FIRST_TOUCH => firstTouchAttribution journeys
  | .LAST_TOUCH => lastTouchAttribution journeys
  | .LINEAR => linearAttribution journeys
  | .TIME_DECAY => timeDecayAttribution journeys timeDecayFactor
  | .POSITION_BASED => positionBasedAttribution journeys
  | .DATA_DRIVEN => dataDrivenAttribution journeys
  | .MARKOV_CHAIN => markovChainAttribution journeys
  | .SHAPLEY_VALUE => shapleyValueAttribution journeys

/-- Efficiency score of `optimize_budget_allocation`: a channel
contributes `roi * attribution_weight` exactly when it has a
(strictly positive) ROI entry and belongs to the current budget. -/
def efficiencyScore (result : AttributionResult)
    (budgetChannels : Finset ChannelType) (c : ChannelType) : Option ℝ :=
  match result.roiByChannel c with
  | some roi =>
      if 0 < roi ∧ c ∈ budgetChannels then
        some (roi * dget result.channelAttribution c)
      else none
  | none => none

/-- `total_efficiency` of `optimize_budget_allocation`. -/
def totalEfficiency (result : AttributionResult)
    (budgetChannels : Finset ChannelType) : ℝ :=
  (channelList.map (fun c => (efficiencyScore result budgetChannels c).getD 0)).sum

/-- Embedding of `optimize_budget_allocation`.  Only the keys of
`current_budget` are ever read by the source, so the current budget is
modelled by its key set.  When `total_efficiency` is positive each
budgeted channel gets a share proportional to its efficiency score, with
a flat 2% of the total budget for budgeted channels without a score;
otherwise the budget is split equally (for an empty budget the source
would raise `ZeroDivisionError` there; the `0 / 0 = 0` convention of `ℝ`
stands in for that unreached error case). -/
def optimizeBudgetAllocation (result : AttributionResult)
    (budgetChannels : Finset ChannelType) (totalBudget : ℝ) :
    ChannelType → Option ℝ :=
  fun c =>
    if c ∈ budgetChannels then
      some (if 0 < totalEfficiency result budgetChannels then
        match efficiencyScore result budgetChannels c with
        | some score =>
            totalBudget * (score / totalEfficiency result budgetChannels)
        | none => totalBudget * 0.02
      else totalBudget / budgetChannels.card)
    else none

end

/-! ### ROI tracker (`src/roi_tracker.py`)

The tracker's alert arithmetic is entirely rational, so metric values are
embedded as `ℚ` (keeping the definitions computable); the only
non-rational value the source can produce is the `float('inf')` CPA
sentinel, modelled by an explicit extended-value type. -/

/-- Embedding of the `AlertSeverity` enum. -/
inductive AlertSeverity where
  | LOW | MEDIUM | HIGH | CRITICAL
deriving DecidableEq

/-- Embedding of the `MetricType` enum. -/
inductive MetricType where
  | ROAS | CPA | CTR | CONVERSION_RATE | COST | REVENUE
  | IMPRESSIONS | CLICKS | CONVERSIONS
deriving DecidableEq

/-- A Python float value as the tracker can produce it: a finite rational
or an infinity (the CPA sentinel and the variances it induces). -/
inductive PyVal where
  | fin : ℚ → PyVal
  | pinf
  | ninf
deriving DecidableEq

/-- Embedding of the `CampaignSnapshot` dataclass.  The `metrics`
dictionary is read exclusively through `metrics.get(metric_type, 0)`, so
it is modelled as a total function with 0 for absent keys; the timestamp
is a rational day count. -/
structure CampaignSnapshot where
  campaignId : String
  channel : String
  timestamp : ℚ
  metrics : MetricType → ℚ

/-- Embedding of `CampaignSnapshot.roas`: `revenue / cost` when
`cost > 0`, else 0. -/
def CampaignSnapshot.roas (s : CampaignSnapshot) : ℚ :=
  if 0 < s.metrics .COST then s.metrics .REVENUE / s.metrics .COST else 0

/-- The finite value of `CampaignSnapshot.cpa` when `conversions > 0`,
`none` when the source would return `float('inf')`. -/
def CampaignSnapshot.cpaFin (s : CampaignSnapshot) : Option ℚ :=
  if 0 < s.metrics .CONVERSIONS then
    some (s.metrics .COST / s.metrics .CONVERSIONS) else none

/-- Embedding of `CampaignSnapshot.cpa`: `cost / conversions` when
`conversions > 0`, else the `float('inf')` sentinel. -/
def CampaignSnapshot.cpa (s : CampaignSnapshot) : PyVal :=
  match s.cpaFin with
  | some q => .fin q
  | none => .pinf

/-- Embedding of `CampaignSnapshot.ctr`: `clicks / impressions` when
`impressions > 0`, else 0. -/
def CampaignSnapshot.ctr (s : CampaignSnapshot) : ℚ :=
  if 0 < s.metrics .IMPRESSIONS then
    s.metrics .CLICKS / s.metrics .IMPRESSIONS else 0

/-- Embedding of `CampaignSnapshot.conversion_rate`:
`conversions / clicks` when `clicks > 0`, else 0. -/
def CampaignSnapshot.conversionRate (s : CampaignSnapshot) : ℚ :=
  if 0 < s.metrics .CLICKS then
    s.metrics .CONVERSIONS / s.metrics .CLICKS else 0

/-- Embedding of the `Alert` dataclass.  The formatted `alert_id` and
`message` strings are presentation-only and omitted. -/
structure Alert where
  campaignId : String
  channel : String
  metricType : MetricType
  severity : AlertSeverity
  currentValue : PyVal
  thresholdValue : ℚ
  variancePercentage : PyVal
  timestamp : ℚ
  isResolved : Bool := false
  resolutionTimestamp : Option ℚ := none
deriving DecidableEq

/-- One metric's severity thresholds (the four-tier dictionaries of
`self.alert_thresholds`). -/
structure Thresholds where
  low : ℚ
  medium : ℚ
  high : ℚ
  critical : ℚ
deriving DecidableEq

/-- The default `alert_thresholds` dictionary of `ROITracker.__init__`. -/
def defaultAlertThresholds : MetricType → Option Thresholds :=
  fun m =>
    match m with
    | .ROAS => some ⟨-10, -20, -30, -50⟩
    | .CPA => some ⟨10, 25, 50, 100⟩
    | .CTR => some ⟨-15, -30, -45, -60⟩
    | .CONVERSION_RATE => some ⟨-10, -20, -35, -50⟩
    | .COST => some ⟨20, 50, 100, 200⟩
    | _ => none

/-- Python's `v <= t` for a possibly-infinite left operand and a finite
threshold. -/
def PyVal.leQ (v : PyVal) (t : ℚ) : Bool :=
  match v with
  | .fin q => q ≤ t
  | .pinf => false
  | .ninf => true

/-- Python's `v >= t` for a possibly-infinite left operand and a finite
threshold. -/
def PyVal.geQ (v : PyVal) (t : ℚ) : Bool :=
  match v with
  | .fin q => t ≤ q
  | .pinf => true
  | .ninf => false

/-- Python's `v == 0` (`float('inf') == 0` is false). -/
def PyVal.isZero (v : PyVal) : Bool :=
  match v with
  | .fin q => q = 0
  | _ => false

/-- `((current - comparison) / comparison) * 100` under Python float
semantics, for a finite nonzero comparison value. -/
def variancePct (cur : PyVal) (comp : ℚ) : PyVal :=
  match cur with
  | .fin q => .fin ((q - comp) / comp * 100)
  | .pinf => if 0 < comp then .pinf else .ninf
  | .ninf => if 0 < comp then .ninf else .pinf

/-- Embedding of the severity cascade of `_check_performance_alerts`:
decreases are bad for ROAS/CTR/conversion rate, increases are bad for
CPA/cost; the `.get(tier, default)` fallbacks of the source are kept. -/
def severityFor (ths : Option Thresholds) (m : MetricType) (v : PyVal) :
    Option AlertSeverity :=
  if m = .ROAS ∨ m = .CTR ∨ m = .CONVERSION_RATE then
    if v.leQ ((ths.map Thresholds.critical).getD (-50)) then some .CRITICAL
    else if v.leQ ((ths.map Thresholds.high).getD (-30)) then some .HIGH
    else if v.leQ ((ths.map Thresholds.medium).getD (-20)) then some .MEDIUM
    else if v.leQ ((ths.map Thresholds.low).getD (-10)) then some .LOW
    else none
  else if m = .CPA ∨ m = .COST then
    if v.geQ ((ths.map Thresholds.critical).getD 100) then some .CRITICAL
    else if v.geQ ((ths.map Thresholds.high).getD 50) then some .HIGH
    else if v.geQ ((ths.map Thresholds.medium).getD 25) then some .MEDIUM
    else if v.geQ ((ths.map Thresholds.low).getD 10) then some .LOW
    else none
  else none

/-- The comparison-period observations of one metric
(`_check_performance_alerts`): ROAS values are filtered to the positive
ones, infinite CPA values are dropped, and the remaining metrics are read
directly. -/
def comparisonValues (m : MetricType) (comps : List CampaignSnapshot) :
    List ℚ :=
  match m with
  | .ROAS => (comps.map CampaignSnapshot.roas).filter (fun v => 0 < v)
  | .CPA => comps.filterMap CampaignSnapshot.cpaFin
  | .CTR => comps.map CampaignSnapshot.ctr
  | .CONVERSION_RATE => comps.map CampaignSnapshot.conversionRate
  | _ => comps.map (fun s => s.metrics m)

/-- `comparison_metrics[metric_type] = np.mean(values)` when the value
list is non-empty, no entry otherwise. -/
def comparisonMetric (m : MetricType) (comps : List CampaignSnapshot) :
    Option ℚ :=
  let values := comparisonValues m comps
  if values.isEmpty then none
  else some (values.sum / values.length)

/-- The `metrics_to_check` dictionary of `_check_performance_alerts`, in
its insertion order. -/
def metricsToCheck (s : CampaignSnapshot) : List (MetricType × PyVal) :=
  [(.ROAS, .fin s.roas), (.CPA, s.cpa), (.CTR, .fin s.ctr),
   (.CONVERSION_RATE, .fin s.conversionRate),
   (.COST, .fin (s.metrics .COST))]

/-- One iteration of the alert loop of `_check_performance_alerts`: skip
the metric when it has no comparison entry, when its current value is 0
or when the comparison value is 0; otherwise compute the variance and
emit an alert exactly when the severity cascade fires. -/
def mkAlert (now : ℚ) (campaignId channel : String)
    (ths : MetricType → Option Thresholds) (comps : List CampaignSnapshot)
    (p : MetricType × PyVal) : Option Alert :=
  match comparisonMetric p.1 comps with
  | none => none
  | some comp =>
      if p.2.isZero then none
      else if comp = 0 then none
      else
        let v := variancePct p.2 comp
        match severityFor (ths p.1) p.1 v with
        | none => none
        | some sev =>
            some ⟨campaignId, channel, p.1, sev, p.2, comp, v, now,
              false, none⟩

/-- The comparison set of `_check_performance_alerts`: the same
campaign's snapshots from 24–48 hours before `now`. -/
def comparisonSnapshots (now : ℚ) (history : List CampaignSnapshot)
    (snap : CampaignSnapshot) : List CampaignSnapshot :=
  history.filter (fun s =>
    s.campaignId == snap.campaignId
      && decide (now - 2 ≤ s.timestamp) && decide (s.timestamp < now - 1))

/-- Embedding of `_check_performance_alerts`: with no comparison data the
check returns immediately, otherwise each entry of `metrics_to_check` may
contribute one alert. -/
def checkPerformanceAlerts (now : ℚ) (history : List CampaignSnapshot)
    (ths : MetricType → Option Thresholds) (snap : CampaignSnapshot) :
    List Alert :=
  let comps := comparisonSnapshots now history snap
  if comps.isEmpty then []
  else (metricsToCheck snap).filterMap
    (mkAlert now snap.campaignId snap.channel ths comps)

/-- A registered alert callback: it either returns normally or raises an
exception, represented by an error message. -/
abbrev AlertCallback := Alert → Except String Unit

/-- Embedding of the per-alert observer loop of
`_check_performance_alerts`: each callback is invoked under its own
`try/except`, so its outcome — normal return or caught-and-logged
exception — is recorded and the loop continues with the next callback. -/
def notifyLoop (callbacks : List AlertCallback) (a : Alert) :
    List (Except String Unit) :=
  match callbacks with
  | [] => []
  | cb :: rest => cb a :: notifyLoop rest a

/-- The mutable state of a `ROITracker` instance: snapshot history, alert
list, registered callbacks and the alert-threshold configuration. -/
structure TrackerState where
  snapshots : List CampaignSnapshot
  alerts : List Alert
  alertCallbacks : List AlertCallback
  alertThresholds : MetricType → Option Thresholds

/-- Embedding of `record_campaign_snapshot`: append the snapshot, run the
alert check (against the history that already includes the new snapshot),
append any triggered alerts, notify every callback about each new alert,
then trim the history to its last 10,000 entries.  The second component
is the trace of callback outcomes (the source returns `None`; exceptions
raised by callbacks are caught in `notifyLoop` and appear in the trace
instead of propagating). -/
def recordCampaignSnapshot (now : ℚ) (st : TrackerState)
    (snap : CampaignSnapshot) : TrackerState × List (Except String Unit) :=
  let snaps := st.snapshots ++ [snap]
  let newAlerts := checkPerformanceAlerts now snaps st.alertThresholds snap
  let trace := newAlerts.flatMap (fun a => notifyLoop st.alertCallbacks a)
  ({ st with
      snapshots := if 10000 < snaps.length then
        snaps.drop (snaps.length - 10000) else snaps,
      alerts := st.alerts ++ newAlerts }, trace)

/-- The value `get_performance_trend` reads from a snapshot for a given
metric (the derived ratios for ROAS/CPA/CTR/conversion rate — including
the infinite CPA sentinel — and the raw metric otherwise). -/
def trendValue (m : MetricType) (s : CampaignSnapshot) : PyVal :=
  match m with
  | .ROAS => .fin s.roas
  | .CPA => s.cpa
  | .CTR => .fin s.ctr
  | .CONVERSION_RATE => .fin s.conversionRate
  | _ => .fin (s.metrics m)

/-- Embedding of `get_performance_trend`: the `(timestamp, value)` pairs
of the campaign's snapshots from the trailing `days` days, sorted by
timestamp. -/
def getPerformanceTrend (now : ℚ) (st : TrackerState)
    (campaignId : String) (m : MetricType) (days : ℚ) :
    List (ℚ × PyVal) :=
  ((st.snapshots.filter (fun s =>
      s.campaignId == campaignId && decide (now - days ≤ s.timestamp))).map
    (fun s => (s.timestamp, trendValue m s))).mergeSort
    (fun a b => a.1 ≤ b.1)

noncomputable section

/-! The statistical scan of `detect_anomalies` mixes finite values with
the possibly-infinite CPA sentinel through NumPy arithmetic, so it is
modelled over an idealised IEEE value type: real numbers plus the three
special values (`inf`, `-inf`, `nan`) with the usual propagation rules.
No claim exercises this branch, but it is embedded so that
`detect_anomalies` is represented in full. -/

/-- An idealised IEEE double: a real number or a special value. -/
inductive PyFloat where
  | fin : ℝ → PyFloat
  | pinf
  | ninf
  | nan

/-- Conversion from tracker values to IEEE values. -/
def PyVal.toFloat (v : PyVal) : PyFloat :=
  match v with
  | .fin q => .fin (q : ℝ)
  | .pinf => .pinf
  | .ninf => .ninf

/-- IEEE addition. -/
def PyFloat.add (a b : PyFloat) : PyFloat :=
  match a, b with
  | .nan, _ => .nan
  | _, .nan => .nan
  | .fin x, .fin y => .fin (x + y)
  | .pinf, .ninf => .nan
  | .ninf, .pinf => .nan
  | .pinf, _ => .pinf
  | _, .pinf => .pinf
  | .ninf, _ => .ninf
  | _, .ninf => .ninf

/-- IEEE negation. -/
def PyFloat.neg (a : PyFloat) : PyFloat :=
  match a with
  | .fin x => .fin (-x)
  | .pinf => .ninf
  | .ninf => .pinf
  | .nan => .nan

/-- IEEE subtraction. -/
def PyFloat.sub (a b : PyFloat) : PyFloat := a.add b.neg

/-- IEEE multiplication (`inf * 0` is `nan`). -/
def PyFloat.mul (a b : PyFloat) : PyFloat :=
  match a, b with
  | .nan, _ => .nan
  | _, .nan => .nan
  | .fin x, .fin y => .fin (x * y)
  | .pinf, .pinf => .pinf
  | .ninf, .ninf => .pinf
  | .pinf, .ninf => .ninf
  | .ninf, .pinf => .ninf
  | .pinf, .fin y => if y = 0 then .nan else if 0 < y then .pinf else .ninf
  | .fin x, .pinf => if x = 0 then .nan else if 0 < x then .pinf else .ninf
  | .ninf, .fin y => if y = 0 then .nan else if 0 < y then .ninf else .pinf
  | .fin x, .ninf => if x = 0 then .nan else if 0 < x then .ninf else .pinf

/-- IEEE division by a positive integer count (the only divisor shape
`np.mean` uses here). -/
def PyFloat.divNat (a : PyFloat) (n : ℕ) : PyFloat :=
  match a with
  | .nan => .nan
  | .pinf => if n = 0 then .nan else .pinf
  | .ninf => if n = 0 then .nan else .ninf
  | .fin x =>
      if n = 0 then (if x = 0 then .nan else if 0 < x then .pinf else .ninf)
      else .fin (x / n)

/-- IEEE absolute value. -/
def PyFloat.abs (a : PyFloat) : PyFloat :=
  match a with
  | .fin x => .fin |x|
  | .nan => .nan
  | _ => .pinf

/-- IEEE square root (`nan` for negative arguments). -/
def PyFloat.sqrt (a : PyFloat) : PyFloat :=
  match a with
  | .fin x => if 0 ≤ x then .fin (Real.sqrt x) else .nan
  | .pinf => .pinf
  | .ninf => .nan
  | .nan => .nan

/-- IEEE strict comparison (false whenever a `nan` is involved). -/
def PyFloat.ltB (a b : PyFloat) : Bool :=
  match a, b with
  | .nan, _ => false
  | _, .nan => false
  | .fin x, .fin y => decide (x < y)
  | .fin _, .pinf => true
  | .ninf, .fin _ => true
  | .ninf, .pinf => true
  | _, _ => false

/-- `np.mean`: sum divided by length. -/
def npMean (l : List PyFloat) : PyFloat :=
  (l.foldl PyFloat.add (.fin 0)).divNat l.length

/-- `np.std` (population): the square root of the mean squared deviation
from the mean. -/
def npStdFloat (l : List PyFloat) : PyFloat :=
  ((l.map (fun v => (v.sub (npMean l)).mul (v.sub (npMean l)))).foldl
      PyFloat.add (.fin 0)).divNat l.length |>.sqrt

/-- Embedding of `detect_anomalies`: the trailing-30-day trend for the
campaign and metric; empty when it has fewer than 10 points, otherwise
each of the last 7 observations whose deviation from the trend mean
exceeds `sensitivity * std` is flagged as a spike or a drop. -/
def detectAnomalies (now : ℚ) (st : TrackerState) (campaignId : String)
    (m : MetricType) (sensitivity : ℝ) : List (ℚ × PyVal × String) :=
  let trendData := getPerformanceTrend now st campaignId m 30
  if trendData.length < 10 then []
  else
    let values := trendData.map (fun p => p.2.toFloat)
    let meanValue := npMean values
    let stdValue := npStdFloat values
    let threshold := (PyFloat.fin sensitivity).mul stdValue
    ((trendData.drop (trendData.length - 7)).filter (fun p =>
        PyFloat.ltB threshold ((p.2.toFloat.sub meanValue).abs))).map
      (fun p =>
        (p.1, p.2,
          if PyFloat.ltB (meanValue.add threshold) p.2.toFloat then
            "positive_spike"
          else "negative_drop"))

end

/-! ### Specification-side schedules and concrete test inputs -/

/-- The severity schedule exactly as the specification words it: ROAS,
CTR and conversion rate share the −10/−20/−30/−50 tiers, CPA and cost
share the +10/+25/+50/+100 tiers.  This definition follows the
specification's words, not the source, and exists to be compared with
the source's behaviour. -/
def claimedSeveritySchedule (m : MetricType) (v : PyVal) :
    Option AlertSeverity :=
  if m = .ROAS ∨ m = .CTR ∨ m = .CONVERSION_RATE then
    if v.leQ (-50) then some .CRITICAL
    else if v.leQ (-30) then some .HIGH
    else if v.leQ (-20) then some .MEDIUM
    else if v.leQ (-10) then some .LOW
    else none
  else if m = .CPA ∨ m = .COST then
    if v.geQ 100 then some .CRITICAL
    else if v.geQ 50 then some .HIGH
    else if v.geQ 25 then some .MEDIUM
    else if v.geQ 10 then some .LOW
    else none
  else none

/-- The direction-aware severity schedule the default configuration
actually implements, written per metric with its own literal tiers:
ROAS −10/−20/−30/−50, CTR −15/−30/−45/−60, conversion rate
−10/−20/−35/−50 (negative swings), CPA +10/+25/+50/+100 and cost
+20/+50/+100/+200 (positive swings). -/
def directionAwareSeverity (m : MetricType) (v : PyVal) :
    Option AlertSeverity :=
  match m with
  | .ROAS =>
      if v.leQ (-50) then some .CRITICAL
      else if v.leQ (-30) then some .HIGH
      else if v.leQ (-20) then some .MEDIUM
      else if v.leQ (-10) then some .LOW
      else none
  | .CTR =>
      if v.leQ (-60) then some .CRITICAL
      else if v.leQ (-45) then some .HIGH
      else if v.leQ (-30) then some .MEDIUM
      else if v.leQ (-15) then some .LOW
      else none
  | .CONVERSION_RATE =>
      if v.leQ (-50) then some .CRITICAL
      else if v.leQ (-35) then some .HIGH
      else if v.leQ (-20) then some .MEDIUM
      else if v.leQ (-10) then some .LOW
      else none
  | .CPA =>
      if v.geQ 100 then some .CRITICAL
      else if v.geQ 50 then some .HIGH
      else if v.geQ 25 then some .MEDIUM
      else if v.geQ 10 then some .LOW
      else none
  | .COST =>
      if v.geQ 200 then some .CRITICAL
      else if v.geQ 100 then some .HIGH
      else if v.geQ 50 then some .MEDIUM
      else if v.geQ 20 then some .LOW
      else none
  | _ => none

/-- A campaign snapshot whose every metric is 0. -/
def zeroMetricsSnapshot : CampaignSnapshot :=
  ⟨"campaign_zero", "paid_search", 0, fun _ => 0⟩

/-- A tracker with no recorded history. -/
def emptyTracker : TrackerState := ⟨[], [], [], defaultAlertThresholds⟩

/-- Prior-day snapshot for the single-ROAS-alert scenario: ROAS 4,
CPA 10, CTR 0.02, conversion rate 0.05, cost 100, recorded 1.5 days
before the observation time 10. -/
def roasDropPrior : CampaignSnapshot :=
  ⟨"c4", "paid_search", 17/2, fun m =>
    match m with
    | .COST => 100
    | .REVENUE => 400
    | .CONVERSIONS => 10
    | .CLICKS => 200
    | .IMPRESSIONS => 10000
    | _ => 0⟩

/-- Tracker holding only `roasDropPrior`. -/
def roasDropState : TrackerState :=
  ⟨[roasDropPrior], [], [], defaultAlertThresholds⟩

/-- New snapshot whose ROAS (2.6) is exactly 35% below the prior-day
average (4) while every other checked metric is unchanged. -/
def roasDropSnap : CampaignSnapshot :=
  ⟨"c4", "paid_search", 10, fun m =>
    match m with
    | .COST => 100
    | .REVENUE => 260
    | .CONVERSIONS => 10
    | .CLICKS => 200
    | .IMPRESSIONS => 10000
    | _ => 0⟩

/-- Prior-day snapshot for the conversion-rate scenario: ROAS 3, CPA 10,
CTR 0.01, conversion rate 0.1, cost 100. -/
def convRatePrior : CampaignSnapshot :=
  ⟨"c2", "social_media", 17/2, fun m =>
    match m with
    | .COST => 100
    | .REVENUE => 300
    | .CONVERSIONS => 10
    | .CLICKS => 100
    | .IMPRESSIONS => 10000
    | _ => 0⟩

/-- Tracker holding only `convRatePrior`. -/
def convRateState : TrackerState :=
  ⟨[convRatePrior], [], [], defaultAlertThresholds⟩

/-- New snapshot whose conversion rate (0.068) is 32% below the
prior-day average (0.1) while every other checked metric stays inside
its thresholds (ROAS unchanged, CPA +2.9%, CTR unchanged, cost −30%). -/
def convRateSnap : CampaignSnapshot :=
  ⟨"c2", "social_media", 10, fun m =>
    match m with
    | .COST => 70
    | .REVENUE => 210
    | .CONVERSIONS => 34/5
    | .CLICKS => 100
    | .IMPRESSIONS => 10000
    | _ => 0⟩

/-- The single alert the conversion-rate scenario records: severity
MEDIUM (the −35 high tier of the code is not reached at −32). -/
def convRateAlert : Alert :=
  ⟨"c2", "social_media", .CONVERSION_RATE, .MEDIUM, .fin (17/250), 1/10,
    .fin (-32), 10, false, none⟩

noncomputable section

/-- A touchpoint on the paid-search channel. -/
def soloTouchPoint : TouchPoint :=
  ⟨0, .PAID_SEARCH, "brand_campaign", 10, 1000, 50, "cust_1", 0, 0⟩

/-- A converted single-touchpoint, single-channel journey with
conversion value 100. -/
def soloJourney : CustomerJourney :=
  ⟨"cust_1", [soloTouchPoint], some 3, 100, 3, true⟩

/-- A journey list in which one channel (paid search) occurs in every
journey. -/
def soloJourneys : List CustomerJourney := [soloJourney]

/-- First touchpoint of the two-channel journey. -/
def twoChannelTouchA : TouchPoint :=
  ⟨0, .PAID_SEARCH, "search_campaign", 50, 1000, 50, "cust_5", 0, 0⟩

/-- Second touchpoint of the two-channel journey. -/
def twoChannelTouchB : TouchPoint :=
  ⟨10, .SOCIAL_MEDIA, "social_campaign", 30, 500, 25, "cust_5", 0, 0⟩

/-- A converted two-touchpoint journey with a conversion timestamp. -/
def twoChannelJourney : CustomerJourney :=
  ⟨"cust_5", [twoChannelTouchA, twoChannelTouchB], some 12, 100, 12, true⟩

/-- Journey list for the time-decay/linear comparison. -/
def twoChannelJourneys : List CustomerJourney := [twoChannelJourney]

/-- An attribution result giving paid search the entire attribution
share with positive ROI, and social media an ROI entry of exactly 0. -/
def floorScenarioResult : AttributionResult :=
  ⟨.LINEAR,
   fun c => match c with | .PAID_SEARCH => some 1 | _ => none,
   fun _ => none,
   fun c => match c with
     | .PAID_SEARCH => some 1
     | .SOCIAL_MEDIA => some 0
     | _ => none,
   fun _ => none, 0.82, 0.85⟩

/-- A current budget covering paid search and social media. -/
def floorScenarioBudget : Finset ChannelType :=
  {.PAID_SEARCH, .SOCIAL_MEDIA}

end

/-! ### Helper lemmas about dictionary sums -/

lemma dget_dinc_self {α : Type} [DecidableEq α] (d : α → Option ℝ) (k : α)
    (v : ℝ) : dget (dinc d k v) k = dget d k + v := by
  simp [dget, dinc]

lemma dget_dinc_ne {α : Type} [DecidableEq α] (d : α → Option ℝ) {k x : α}
    (v : ℝ) (h : x ≠ k) : dget (dinc d k v) x = dget d x := by
  simp [dget, dinc, h]

lemma chSum_dinc (d : ChMap) (c : ChannelType) (v : ℝ) :
    chSum (dinc d c v) = chSum d + v := by
  cases c <;>
    simp [chSum, channelList, dget_dinc_self, dget_dinc_ne, dinc, dget] <;>
    ring

lemma chSum_creditAll (l : List (ChannelType × ℝ)) (d : ChMap) :
    chSum (creditAll d l) = chSum d + (l.map Prod.snd).sum := by
  induction l generalizing d with
  | nil => simp [creditAll]
  | cons p rest ih =>
      have hstep : creditAll d (p :: rest) = creditAll (dinc d p.1 p.2) rest :=
        rfl
      rw [hstep, ih, chSum_dinc]
      simp
      ring

lemma sum_map_div {α : Type} (l : List α) (f : α → ℝ) (t : ℝ) :
    (l.map (fun c => f c / t)).sum = (l.map f).sum / t := by
  induction l with
  | nil => simp
  | cons a l ih => simp [ih]; ring

lemma dget_dscale (d : ChMap) (t : ℝ) (c : ChannelType) :
    dget (dscale d t) c = dget d c / t := by
  cases h : d c <;> simp [dget, dscale, h]

lemma chSum_dscale (d : ChMap) (t : ℝ) : chSum (dscale d t) = chSum d / t := by
  rw [chSum, chSum, ← sum_map_div]
  exact congrArg List.sum (List.map_congr_left (fun c _ => dget_dscale d t c))

lemma chSum_none : chSum (fun _ => none) = 0 := by
  simp [chSum, channelList, dget]

lemma getD_ite_zero {P : Prop} [Decidable P] :
    (if P then some (0 : ℝ) else none).getD 0 = 0 := by
  split_ifs <;> simp

lemma chSum_zero_seed (L : List ChannelType) :
    chSum (fun c => if c ∈ L then some 0 else none) = 0 := by
  simp [chSum, channelList, dget, getD_ite_zero]

/-! ### C6: derived snapshot ratios at zero denominators -/

/-- Claim C6: for every campaign snapshot the derived ratios are total
and guard their denominators — `roas`, `ctr` and `conversion_rate`
return 0 when cost, impressions and clicks respectively are 0, and `cpa`
returns the `float('inf')` sentinel when conversions is 0.  (The
embedded ratio functions are total Lean functions over `ℚ`, so no
division error or NaN can arise.) -/
theorem snapshot_ratio_guards (s : CampaignSnapshot) :
    (s.metrics .COST = 0 → s.roas = 0) ∧
    (s.metrics .IMPRESSIONS = 0 → s.ctr = 0) ∧
    (s.metrics .CLICKS = 0 → s.conversionRate = 0) ∧
    (s.metrics .CONVERSIONS = 0 → s.cpa = .pinf) := by
  refine ⟨fun h => ?_, fun h => ?_, fun h => ?_, fun h => ?_⟩ <;>
    simp [CampaignSnapshot.roas, CampaignSnapshot.ctr,
      CampaignSnapshot.conversionRate, CampaignSnapshot.cpa,
      CampaignSnapshot.cpaFin, h]

/-- Witness for C6 at the all-zero snapshot. -/
theorem snapshot_ratio_guards_witness :
    zeroMetricsSnapshot.roas = 0 ∧ zeroMetricsSnapshot.ctr = 0 ∧
    zeroMetricsSnapshot.conversionRate = 0 ∧
    zeroMetricsSnapshot.cpa = .pinf :=
  ⟨(snapshot_ratio_guards zeroMetricsSnapshot).1 rfl,
   (snapshot_ratio_guards zeroMetricsSnapshot).2.1 rfl,
   (snapshot_ratio_guards zeroMetricsSnapshot).2.2.1 rfl,
   (snapshot_ratio_guards zeroMetricsSnapshot).2.2.2 rfl⟩

/-! ### C9: the snapshot history is a FIFO buffer capped at 10,000 -/

/-- Claim C9: after every `record_campaign_snapshot` the history holds at
most 10,000 snapshots, and it is exactly the suffix of most recently
recorded snapshots: the old history plus the new snapshot with the
oldest entries dropped once the capacity is exceeded. -/
theorem snapshot_history_capped (now : ℚ) (st : TrackerState)
    (snap : CampaignSnapshot) :
    (recordCampaignSnapshot now st snap).1.snapshots
        = (st.snapshots ++ [snap]).drop (st.snapshots.length + 1 - 10000) ∧
      (recordCampaignSnapshot now st snap).1.snapshots.length
        = min (st.snapshots.length + 1) 10000 ∧
      (recordCampaignSnapshot now st snap).1.snapshots.length ≤ 10000 := by
  unfold recordCampaignSnapshot
  simp only
  have hlen : (st.snapshots ++ [snap]).length = st.snapshots.length + 1 := by
    simp
  by_cases h : 10000 < (st.snapshots ++ [snap]).length
  · rw [if_pos h]
    refine ⟨by rw [hlen], ?_, ?_⟩ <;>
      simp [List.length_drop, hlen] <;> omega
  · rw [if_neg h]
    rw [hlen] at h
    have : st.snapshots.length + 1 - 10000 = 0 := by omega
    refine ⟨by rw [this, List.drop_zero], ?_, ?_⟩ <;>
      simp [hlen] <;> omega

/-! ### C8: alert callbacks are isolated and all invoked in order -/

lemma notifyLoop_eq_map (callbacks : List AlertCallback) (a : Alert) :
    notifyLoop callbacks a = callbacks.map (fun cb => cb a) := by
  induction callbacks with
  | nil => rfl
  | cons cb rest ih => simp [notifyLoop, ih]

/-- Claim C8: during `record_campaign_snapshot` every registered callback
is invoked on every newly triggered alert, in registration order, and a
callback that raises contributes a caught (logged) error to the outcome
trace instead of aborting the remaining callbacks — the trace is the
full alert-by-callback table.  Moreover the recorded tracker state is
identical to the state recorded with no callbacks at all, so callback
failures never propagate into the result of recording. -/
theorem alert_callbacks_isolated (now : ℚ) (st : TrackerState)
    (snap : CampaignSnapshot) :
    (recordCampaignSnapshot now st snap).2
        = (checkPerformanceAlerts now (st.snapshots ++ [snap])
            st.alertThresholds snap).flatMap
            (fun a => st.alertCallbacks.map (fun cb => cb a)) ∧
      (recordCampaignSnapshot now st snap).1.snapshots
        = (recordCampaignSnapshot now
            { st with alertCallbacks := [] } snap).1.snapshots ∧
      (recordCampaignSnapshot now st snap).1.alerts
        = (recordCampaignSnapshot now
            { st with alertCallbacks := [] } snap).1.alerts := by
  refine ⟨?_, rfl, rfl⟩
  unfold recordCampaignSnapshot
  simp only
  exact congrArg _ (funext (fun a => notifyLoop_eq_map st.alertCallbacks a))

/-! ### C7: anomaly detection needs at least 10 data points -/

/-- Claim C7: for every campaign, metric and sensitivity,
`detect_anomalies` returns the empty list whenever fewer than 10 of the
tracker's snapshots belong to the campaign (regardless of the values'
variance): the 30-day trend then has fewer than 10 points and the
detector returns before any statistics are computed. -/
lemma length_filter_and_le {α : Type} (l : List α) (p q : α → Bool) :
    (l.filter (fun s => p s && q s)).length ≤ (l.filter p).length := by
  induction l with
  | nil => simp
  | cons a t ih =>
      simp only [List.filter_cons]
      cases hp : p a <;> cases hq : q a <;> simp [hp, hq] <;> omega

theorem detect_anomalies_insufficient (now : ℚ) (st : TrackerState)
    (campaignId : String) (m : MetricType) (sensitivity : ℝ)
    (h : (st.snapshots.filter
      (fun s => s.campaignId == campaignId)).length < 10) :
    detectAnomalies now st campaignId m sensitivity = [] := by
  have hlen : (getPerformanceTrend now st campaignId m 30).length < 10 := by
    unfold getPerformanceTrend
    rw [List.length_mergeSort, List.length_map]
    exact lt_of_le_of_lt
      (length_filter_and_le st.snapshots
        (fun s => s.campaignId == campaignId)
        (fun s => decide (now - 30 ≤ s.timestamp))) h
  unfold detectAnomalies
  rw [if_pos hlen]

/-- Witness for C7: an empty tracker has fewer than 10 points for any
campaign, and detection returns the empty list. -/
theorem detect_anomalies_insufficient_witness :
    (emptyTracker.snapshots.filter
        (fun s => s.campaignId == "campaign_zero")).length < 10 ∧
      detectAnomalies 0 emptyTracker "campaign_zero" .ROAS 2 = [] :=
  ⟨by simp [emptyTracker],
   detect_anomalies_insufficient 0 emptyTracker "campaign_zero" .ROAS 2
     (by simp [emptyTracker])⟩

/-! ### C3: building an attribution model on an empty journey list -/

/-- Counterexample to claim C3: building an attribution model on an
empty journey list does not fail — no `InsufficientDataError` (nor any
other exception) is reachable in `build_attribution_model`, and the
source defines no such error class at all — it returns an ordinary
`AttributionResult`.  Concretely for `first_touch` on `[]` the call
returns a result carrying the model tag, the hardcoded accuracy
constant, and empty attribution maps. -/
theorem build_on_empty_returns_result :
    (buildAttributionModel [] .FIRST_TOUCH (1/10)).modelType
        = .FIRST_TOUCH ∧
      (buildAttributionModel [] .FIRST_TOUCH (1/10)).modelAccuracy = 0.75 ∧
      (buildAttributionModel [] .FIRST_TOUCH (1/10)).channelAttribution
        = (fun _ => none) := by
  refine ⟨rfl, rfl, funext fun c => ?_⟩
  simp [buildAttributionModel, firstTouchAttribution, finishAttr,
    attrLoop, emptyAcc, lt_irrefl]

/-- Claim C3 (amended): for every attribution model tag, building the
model on an empty journey list succeeds and returns a result whose
channel- and campaign-attribution dictionaries are empty (rather than
failing with an `InsufficientDataError`, which the source never
raises). -/
theorem build_on_empty_model (m : AttributionModel) (decay : ℝ) :
    (buildAttributionModel [] m decay).channelAttribution = (fun _ => none) ∧
      (buildAttributionModel [] m decay).campaignAttribution
        = (fun _ => none) := by
  cases m <;>
    refine ⟨funext fun c => ?_, funext fun p => ?_⟩ <;>
    simp [buildAttributionModel, firstTouchAttribution, lastTouchAttribution,
      linearAttribution, timeDecayAttribution, positionBasedAttribution,
      dataDrivenAttribution, markovChainAttribution, shapleyValueAttribution,
      finishAttr, attrLoop, emptyAcc, lt_irrefl, markovChannelRaw,
      markovTotalEffect, markovCampaignRaw, markovTotalCampaignValue,
      allChannels, shapleyTotalCampaignValue, chSum, channelList, dget]

/-! ### C10: the 2% floor for unscored budgeted channels -/

/-- Claim C10: in `optimize_budget_allocation` a budgeted channel whose
ROI entry is missing, zero or negative is excluded from the efficiency
scores, so whenever the total efficiency is positive that channel is
allocated exactly 2% of the total budget, regardless of its attribution
share. -/
theorem budget_floor_for_unscored (result : AttributionResult)
    (budgetChannels : Finset ChannelType) (totalBudget : ℝ) (c : ChannelType)
    (hc : c ∈ budgetChannels)
    (hroi : result.roiByChannel c = none ∨
      ∃ r, result.roiByChannel c = some r ∧ r ≤ 0)
    (hpos : 0 < totalEfficiency result budgetChannels) :
    optimizeBudgetAllocation result budgetChannels totalBudget c
      = some (totalBudget * 0.02) := by
  have hscore : efficiencyScore result budgetChannels c = none := by
    rcases hroi with h | ⟨r, h, hr⟩
    · simp [efficiencyScore, h]
    · unfold efficiencyScore
      rw [h]
      exact if_neg (fun hx => absurd hx.1 (not_lt.2 hr))
  unfold optimizeBudgetAllocation
  rw [if_pos hc, if_pos hpos, hscore]

/-- Witness for C10: social media is budgeted with an ROI entry of 0, so
with total efficiency 1 it receives exactly 2% of the 100-unit budget. -/
theorem budget_floor_for_unscored_witness :
    optimizeBudgetAllocation floorScenarioResult floorScenarioBudget 100
        .SOCIAL_MEDIA
      = some (100 * 0.02) :=
  budget_floor_for_unscored floorScenarioResult floorScenarioBudget 100
    .SOCIAL_MEDIA
    (by decide)
    (Or.inr ⟨0, rfl, le_refl 0⟩)
    (by norm_num [totalEfficiency, channelList, efficiencyScore,
      floorScenarioResult, floorScenarioBudget, dget])

/-! ### C4: a 35% ROAS drop records exactly one HIGH ROAS alert -/

lemma comparisonMetric_roas_pos {comps : List CampaignSnapshot} {μ : ℚ}
    (h : comparisonMetric .ROAS comps = some μ) : 0 < μ := by
  unfold comparisonMetric at h
  by_cases he : (comparisonValues .ROAS comps).isEmpty
  · simp [he] at h
  · simp only [he, Bool.false_eq_true, if_false, Option.some.injEq] at h
    have hne : comparisonValues .ROAS comps ≠ [] := by
      simpa [List.isEmpty_iff] using he
    have hall : ∀ x ∈ comparisonValues .ROAS comps, 0 < x := by
      intro x hx
      have := List.of_mem_filter hx
      simpa using this
    have hsum : 0 < (comparisonValues .ROAS comps).sum :=
      List.sum_pos _ hall hne
    have hlen : 0 < ((comparisonValues .ROAS comps).length : ℚ) := by
      have := List.length_pos_of_ne_nil hne
      exact_mod_cast this
    rw [← h]
    exact div_pos hsum hlen

lemma comparisonMetric_some_nonempty {m : MetricType}
    {comps : List CampaignSnapshot} {μ : ℚ}
    (h : comparisonMetric m comps = some μ) : comps.isEmpty = false := by
  cases hc : comps.isEmpty
  · rfl
  · exfalso
    have : comps = [] := by simpa [List.isEmpty_iff] using hc
    subst this
    cases m <;> simp [comparisonMetric, comparisonValues] at h

/-- Claim C4: recording a snapshot whose ROAS sits exactly 35% below the
same campaign's prior-day average, while every other checked metric
fails to trigger (is skipped or stays inside its thresholds), appends
exactly one alert, and that alert is HIGH-severity and tagged ROAS. -/
theorem roas_drop_single_high_alert (now : ℚ) (st : TrackerState)
    (snap : CampaignSnapshot) (μ : ℚ)
    (hth : st.alertThresholds = defaultAlertThresholds)
    (hcmp : comparisonMetric .ROAS
      (comparisonSnapshots now (st.snapshots ++ [snap]) snap) = some μ)
    (hroas : snap.roas = 65/100 * μ)
    (hothers : ∀ p ∈ metricsToCheck snap, p.1 ≠ .ROAS →
      mkAlert now snap.campaignId snap.channel st.alertThresholds
        (comparisonSnapshots now (st.snapshots ++ [snap]) snap) p = none) :
    (recordCampaignSnapshot now st snap).1.alerts
      = st.alerts ++ [⟨snap.campaignId, snap.channel, .ROAS, .HIGH,
          .fin snap.roas, μ, .fin (-35), now, false, none⟩] := by
  have hμ : 0 < μ := comparisonMetric_roas_pos hcmp
  have hvar : (snap.roas - μ) / μ * 100 = -35 := by
    rw [hroas]
    field_simp
    ring
  have hroasAlert : mkAlert now snap.campaignId snap.channel
      st.alertThresholds
      (comparisonSnapshots now (st.snapshots ++ [snap]) snap)
      (.ROAS, .fin snap.roas) = some ⟨snap.campaignId, snap.channel, .ROAS,
        .HIGH, .fin snap.roas, μ, .fin (-35), now, false, none⟩ := by
    unfold mkAlert
    rw [hcmp]
    simp only
    have hz : (PyVal.fin snap.roas).isZero = false := by
      simp [PyVal.isZero, hroas]
      positivity
    rw [hz]
    simp only [Bool.false_eq_true, if_false]
    rw [if_neg (ne_of_gt hμ)]
    have hv : variancePct (.fin snap.roas) μ = .fin (-35) := by
      simp [variancePct, hvar]
    rw [hv, hth]
    rfl
  have hne : (comparisonSnapshots now (st.snapshots ++ [snap]) snap).isEmpty
      = false := comparisonMetric_some_nonempty hcmp
  have hnew : checkPerformanceAlerts now (st.snapshots ++ [snap])
      st.alertThresholds snap
      = [⟨snap.campaignId, snap.channel, .ROAS, .HIGH, .fin snap.roas, μ,
          .fin (-35), now, false, none⟩] := by
    unfold checkPerformanceAlerts
    simp only [hne, Bool.false_eq_true, if_false]
    have h2 := hothers (.CPA, snap.cpa) (by simp [metricsToCheck])
      (by simp)
    have h3 := hothers (.CTR, .fin snap.ctr) (by simp [metricsToCheck])
      (by simp)
    have h4 := hothers (.CONVERSION_RATE, .fin snap.conversionRate)
      (by simp [metricsToCheck]) (by simp)
    have h5 := hothers (.COST, .fin (snap.metrics .COST))
      (by simp [metricsToCheck]) (by simp)
    simp [metricsToCheck, List.filterMap_cons, hroasAlert, h2, h3, h4, h5]
  unfold recordCampaignSnapshot
  simp only
  rw [hnew]

/-- Witness for C4: with a prior-day snapshot at ROAS 4 and a new
snapshot at ROAS 2.6 (and every other metric unchanged), exactly the
single HIGH ROAS alert is recorded. -/
theorem roas_drop_single_high_alert_witness :
    (recordCampaignSnapshot 10 roasDropState roasDropSnap).1.alerts
      = [⟨"c4", "paid_search", .ROAS, .HIGH, .fin (13/5), 4, .fin (-35),
          10, false, none⟩] := by
  have h := roas_drop_single_high_alert 10 roasDropState roasDropSnap 4
    rfl
    (by norm_num [comparisonMetric, comparisonValues, comparisonSnapshots,
      roasDropState, roasDropPrior, roasDropSnap, CampaignSnapshot.roas,
      List.filter])
    (by norm_num [CampaignSnapshot.roas, roasDropSnap])
    (by
      intro p hp hne
      simp only [metricsToCheck, List.mem_cons, List.not_mem_nil,
        or_false] at hp
      rcases hp with hp | hp | hp | hp | hp <;> subst hp <;>
        first
          | exact absurd rfl hne
          | (norm_num [mkAlert, comparisonMetric, comparisonValues,
              comparisonSnapshots, roasDropState, roasDropPrior, roasDropSnap,
              CampaignSnapshot.roas, CampaignSnapshot.cpa,
              CampaignSnapshot.cpaFin, CampaignSnapshot.ctr,
              CampaignSnapshot.conversionRate, severityFor, variancePct,
              PyVal.isZero, PyVal.leQ, PyVal.geQ, defaultAlertThresholds,
              List.filter, List.filterMap_cons, List.filterMap_nil] <;>
             try decide))
  rw [h]
  norm_num [roasDropState, roasDropSnap, CampaignSnapshot.roas]

/-! ### C2: alert severities follow the configured per-metric schedule -/

lemma severityFor_default (m : MetricType) (v : PyVal) :
    severityFor (defaultAlertThresholds m) m v = directionAwareSeverity m v := by
  cases m <;> rfl

lemma cpa_eq (s : CampaignSnapshot) :
    s.cpa = if 0 < s.metrics .CONVERSIONS then
      PyVal.fin (s.metrics .COST / s.metrics .CONVERSIONS) else .pinf := by
  unfold CampaignSnapshot.cpa CampaignSnapshot.cpaFin
  by_cases h : 0 < s.metrics .CONVERSIONS <;> simp [h]

lemma mkAlert_eq (now : ℚ) (campaignId channel : String)
    (ths : MetricType → Option Thresholds) (comps : List CampaignSnapshot)
    (p : MetricType × PyVal) :
    mkAlert now campaignId channel ths comps p
      = (comparisonMetric p.1 comps).bind (fun comp =>
          if p.2.isZero then none
          else if comp = 0 then none
          else (severityFor (ths p.1) p.1 (variancePct p.2 comp)).map
            (fun sev => ⟨campaignId, channel, p.1, sev, p.2, comp,
              variancePct p.2 comp, now, false, none⟩)) := by
  unfold mkAlert
  cases comparisonMetric p.1 comps with
  | none => rfl
  | some comp =>
      simp only [Option.some_bind]
      by_cases hz : p.2.isZero
      · simp [hz]
      · simp only [Bool.not_eq_true] at hz
        simp only [hz, Bool.false_eq_true, if_false]
        by_cases hc : comp = 0
        · simp [hc]
        · rw [if_neg hc, if_neg hc]
          cases severityFor (ths p.1) p.1 (variancePct p.2 comp) <;> rfl

/-- Recording `convRateSnap` over `convRatePrior` triggers exactly the
single MEDIUM conversion-rate alert at variance −32%. -/
lemma convRate_record_eval :
    (recordCampaignSnapshot 10 convRateState convRateSnap).1.alerts
      = [convRateAlert] := by
  unfold recordCampaignSnapshot
  simp only
  have hcomps : comparisonSnapshots 10
      (convRateState.snapshots ++ [convRateSnap]) convRateSnap
      = [convRatePrior] := by
    norm_num [comparisonSnapshots, convRateState, convRatePrior, convRateSnap,
      List.filter]
  have hR : mkAlert 10 convRateSnap.campaignId convRateSnap.channel
      convRateState.alertThresholds [convRatePrior]
      (.ROAS, .fin convRateSnap.roas) = none := by
    rw [mkAlert_eq]
    norm_num [comparisonMetric, comparisonValues, CampaignSnapshot.roas,
      convRatePrior, convRateSnap, convRateState, severityFor, variancePct,
      PyVal.isZero, PyVal.leQ, PyVal.geQ, defaultAlertThresholds, List.filter]
  have hCPA : mkAlert 10 convRateSnap.campaignId convRateSnap.channel
      convRateState.alertThresholds [convRatePrior]
      (.CPA, convRateSnap.cpa) = none := by
    rw [mkAlert_eq]
    norm_num [comparisonMetric, comparisonValues, cpa_eq,
      CampaignSnapshot.cpaFin, convRatePrior, convRateSnap, convRateState,
      severityFor, variancePct, PyVal.isZero, PyVal.leQ, PyVal.geQ,
      defaultAlertThresholds, List.filterMap_cons, List.filterMap_nil]
    exact fun h => absurd h (by decide)
  have hCTR : mkAlert 10 convRateSnap.campaignId convRateSnap.channel
      convRateState.alertThresholds [convRatePrior]
      (.CTR, .fin convRateSnap.ctr) = none := by
    rw [mkAlert_eq]
    norm_num [comparisonMetric, comparisonValues, CampaignSnapshot.ctr,
      convRatePrior, convRateSnap, convRateState, severityFor, variancePct,
      PyVal.isZero, PyVal.leQ, PyVal.geQ, defaultAlertThresholds]
  have hCONV : mkAlert 10 convRateSnap.campaignId convRateSnap.channel
      convRateState.alertThresholds [convRatePrior]
      (.CONVERSION_RATE, .fin convRateSnap.conversionRate)
      = some convRateAlert := by
    rw [mkAlert_eq]
    norm_num [comparisonMetric, comparisonValues,
      CampaignSnapshot.conversionRate, convRatePrior, convRateSnap,
      convRateState, convRateAlert, severityFor, variancePct, PyVal.isZero,
      PyVal.leQ, PyVal.geQ, defaultAlertThresholds]
  have hCOST : mkAlert 10 convRateSnap.campaignId convRateSnap.channel
      convRateState.alertThresholds [convRatePrior]
      (.COST, .fin (convRateSnap.metrics .COST)) = none := by
    rw [mkAlert_eq]
    norm_num [comparisonMetric, comparisonValues, convRatePrior, convRateSnap,
      convRateState, severityFor, variancePct, PyVal.isZero, PyVal.leQ,
      PyVal.geQ, defaultAlertThresholds]
    exact fun h => absurd h (by decide)
  unfold checkPerformanceAlerts
  simp only [hcomps]
  rw [show metricsToCheck convRateSnap
    = [(.ROAS, .fin convRateSnap.roas), (.CPA, convRateSnap.cpa),
       (.CTR, .fin convRateSnap.ctr),
       (.CONVERSION_RATE, .fin convRateSnap.conversionRate),
       (.COST, .fin (convRateSnap.metrics .COST))] from rfl]
  rw [List.filterMap_cons_none hR, List.filterMap_cons_none hCPA,
    List.filterMap_cons_none hCTR, List.filterMap_cons_some hCONV,
    List.filterMap_cons_none hCOST, List.filterMap_nil]
  simp [convRateState]

/-- Counterexample to claim C2: the recorded conversion-rate alert at a
−32% swing has severity MEDIUM (the code's conversion-rate tiers are
−10/−20/−35/−50), while the claimed uniform −10/−20/−30/−50 schedule
would demand HIGH. -/
theorem claimed_severity_schedule_cex :
    (recordCampaignSnapshot 10 convRateState convRateSnap).1.alerts
        = [convRateAlert] ∧
      convRateAlert.severity = .MEDIUM ∧
      claimedSeveritySchedule convRateAlert.metricType
        convRateAlert.variancePercentage = some .HIGH ∧
      some convRateAlert.severity ≠ claimedSeveritySchedule
        convRateAlert.metricType convRateAlert.variancePercentage := by
  refine ⟨convRate_record_eval, rfl, ?_, ?_⟩ <;> decide

/-- Claim C2 (amended): every alert triggered by recording a snapshot
(under the default thresholds) carries the severity that the
direction-aware per-metric schedule assigns to its variance: negative
swings past −10/−20/−30/−50 for ROAS, −15/−30/−45/−60 for CTR and
−10/−20/−35/−50 for conversion rate, positive swings past
+10/+25/+50/+100 for CPA and +20/+50/+100/+200 for cost. -/
theorem alert_severity_follows_schedule (now : ℚ) (st : TrackerState)
    (snap : CampaignSnapshot) (a : Alert)
    (hth : st.alertThresholds = defaultAlertThresholds)
    (ha : a ∈ ((recordCampaignSnapshot now st snap).1.alerts).drop
      st.alerts.length) :
    some a.severity
      = directionAwareSeverity a.metricType a.variancePercentage := by
  have hdrop : ((recordCampaignSnapshot now st snap).1.alerts).drop
      st.alerts.length
      = checkPerformanceAlerts now (st.snapshots ++ [snap])
          st.alertThresholds snap := by
    unfold recordCampaignSnapshot
    simp [List.drop_left]
  rw [hdrop] at ha
  unfold checkPerformanceAlerts at ha
  by_cases hc : (comparisonSnapshots now (st.snapshots ++ [snap])
      snap).isEmpty
  · simp [hc] at ha
  · simp only [Bool.not_eq_true] at hc
    simp only [hc, Bool.false_eq_true, if_false] at ha
    obtain ⟨p, hp, hmk⟩ := List.mem_filterMap.1 ha
    unfold mkAlert at hmk
    cases hcm : comparisonMetric p.1
        (comparisonSnapshots now (st.snapshots ++ [snap]) snap) with
    | none => rw [hcm] at hmk; simp at hmk
    | some comp =>
        rw [hcm] at hmk
        simp only at hmk
        by_cases hz : p.2.isZero
        · simp [hz] at hmk
        · simp only [Bool.not_eq_true] at hz
          simp only [hz, Bool.false_eq_true, if_false] at hmk
          by_cases hc0 : comp = 0
          · simp [hc0] at hmk
          · rw [if_neg hc0] at hmk
            cases hsev : severityFor (st.alertThresholds p.1) p.1
                (variancePct p.2 comp) with
            | none => rw [hsev] at hmk; simp at hmk
            | some sev =>
                rw [hsev] at hmk
                simp only [Option.some.injEq] at hmk
                subst hmk
                rw [hth] at hsev
                simp only
                rw [← severityFor_default]
                exact hsev.symm

/-- Witness for the amended C2 at the conversion-rate scenario: the
recorded MEDIUM alert matches the per-metric schedule at −32%. -/
theorem alert_severity_follows_schedule_witness :
    some convRateAlert.severity = directionAwareSeverity
      convRateAlert.metricType convRateAlert.variancePercentage :=
  alert_severity_follows_schedule 10 convRateState convRateSnap
    convRateAlert rfl
    (by rw [convRate_record_eval]; simp [convRateState])

/-! ### C1/C5: infrastructure for the attribution-loop invariants -/

lemma attrLoop_total (f : CustomerJourney →
    Option (List (ChannelType × ℝ) × List (String × ℝ)))
    (js : List CustomerJourney) (init : AttrAcc) :
    (attrLoop f init js).total = init.total +
      ((js.filter (fun j => (f j).isSome)).map
        (fun j => j.conversionValue)).sum := by
  induction js generalizing init with
  | nil => simp [attrLoop]
  | cons j js ih =>
      have hstep : attrLoop f init (j :: js)
          = attrLoop f (attrStep f init j) js := rfl
      rw [hstep, ih]
      cases hf : f j with
      | none => simp [attrStep, hf]
      | some pr =>
          obtain ⟨cc, pc⟩ := pr
          simp [attrStep, hf]
          ring

lemma attrLoop_chSum (f : CustomerJourney →
    Option (List (ChannelType × ℝ) × List (String × ℝ))) :
    ∀ (js : List CustomerJourney) (init : AttrAcc),
      chSum init.ch = init.total →
      (∀ j ∈ js, ∀ cc pc, f j = some (cc, pc) →
        (cc.map Prod.snd).sum = j.conversionValue) →
      chSum (attrLoop f init js).ch = (attrLoop f init js).total := by
  intro js
  induction js with
  | nil => intro init h1 _; simpa [attrLoop] using h1
  | cons j js ih =>
      intro init h1 h2
      have hstep : attrLoop f init (j :: js)
          = attrLoop f (attrStep f init j) js := rfl
      rw [hstep]
      refine ih (attrStep f init j) ?_ (fun x hx => h2 x
        (List.mem_cons_of_mem _ hx))
      cases hf : f j with
      | none => simpa [attrStep, hf] using h1
      | some pr =>
          obtain ⟨cc, pc⟩ := pr
          simp only [attrStep, hf]
          rw [chSum_creditAll, h1, h2 j (List.mem_cons_self _ _) cc pc hf]

lemma attrLoop_total_pos (f : CustomerJourney →
    Option (List (ChannelType × ℝ) × List (String × ℝ)))
    (js : List CustomerJourney)
    (hpos : ∀ j ∈ js, (f j).isSome → 0 < j.conversionValue)
    (hex : ∃ j ∈ js, (f j).isSome = true)
    (init : AttrAcc) (h0 : init.total = 0) :
    0 < (attrLoop f init js).total := by
  rw [attrLoop_total, h0, zero_add]
  obtain ⟨j0, hj0, hs⟩ := hex
  apply List.sum_pos
  · intro x hx
    obtain ⟨j, hj, rfl⟩ := List.mem_map.1 hx
    exact hpos j (List.mem_of_mem_filter hj)
      (by simpa using List.of_mem_filter hj)
  · have hjf : j0 ∈ js.filter (fun j => (f j).isSome) :=
      List.mem_filter.2 ⟨hj0, by simpa using hs⟩
    exact List.ne_nil_of_mem (List.mem_map_of_mem _ hjf)

lemma sum_map_const_real {α : Type} (l : List α) (c : ℝ) :
    (l.map (fun _ => c)).sum = l.length * c := by
  induction l with
  | nil => simp
  | cons a t ih => simp [ih]; ring

lemma zip_weight_credit_sum (l : List TouchPoint) (w : TouchPoint → ℝ)
    (v W : ℝ) :
    (((l.zip (l.map w)).map (fun p => v * (p.2 / W))).sum)
      = v * ((l.map w).sum / W) := by
  induction l with
  | nil => simp
  | cons a t ih => simp [ih]; ring

lemma zip_one_credit_map {κ : Type} (l : List TouchPoint)
    (key : TouchPoint → κ) (v n : ℝ) :
    ((l.zip (l.map (fun _ => (1 : ℝ)))).map
        (fun p => (key p.1, v * (p.2 / n))))
      = l.map (fun tp => (key tp, v / n)) := by
  induction l with
  | nil => rfl
  | cons a t ih =>
      simp only [List.map_cons, List.zip_cons_cons, ih, mul_one_div]

lemma finish_chSum (model : AttributionModel) (js : List CustomerJourney)
    (acc : AttrAcc) (a b : ℝ) (h : chSum acc.ch = acc.total)
    (hpos : 0 < acc.total) :
    chSum (finishAttr model js acc a b).channelAttribution = 1 := by
  unfold finishAttr
  simp only
  rw [if_pos hpos, chSum_dscale, h, div_self (ne_of_gt hpos)]

lemma firstTouchCredits_converted {j : CustomerJourney}
    (h : (firstTouchCredits j).isSome) : j.isConverted = true := by
  by_cases hcv : j.isConverted = true
  · exact hcv
  · rw [firstTouchCredits, if_neg hcv] at h
    simp at h

lemma lastTouchCredits_converted {j : CustomerJourney}
    (h : (lastTouchCredits j).isSome) : j.isConverted = true := by
  by_cases hcv : j.isConverted = true
  · exact hcv
  · rw [lastTouchCredits, if_neg hcv] at h
    simp at h

lemma linearCredits_converted {j : CustomerJourney}
    (h : (linearCredits j).isSome) : j.isConverted = true := by
  by_cases hcv : j.isConverted = true
  · exact hcv
  · rw [linearCredits, if_neg hcv] at h
    simp at h

lemma timeDecayCredits_converted {decay : ℝ} {j : CustomerJourney}
    (h : (timeDecayCredits decay j).isSome) : j.isConverted = true := by
  by_cases hcv : j.isConverted = true
  · exact hcv
  · rw [timeDecayCredits, if_neg hcv] at h
    simp at h

lemma positionBasedCredits_converted {j : CustomerJourney}
    (h : (positionBasedCredits j).isSome) : j.isConverted = true := by
  by_cases hcv : j.isConverted = true
  · exact hcv
  · rw [positionBasedCredits, if_neg hcv] at h
    simp at h

lemma shapleyCredits_converted {j : CustomerJourney}
    (h : (shapleyCredits j).isSome) : j.isConverted = true := by
  by_cases hcv : j.isConverted = true
  · exact hcv
  · rw [shapleyCredits, if_neg hcv] at h
    simp at h

lemma firstTouchCredits_sum {j : CustomerJourney}
    {cc : List (ChannelType × ℝ)} {pc : List (String × ℝ)}
    (h : firstTouchCredits j = some (cc, pc)) :
    (cc.map Prod.snd).sum = j.conversionValue := by
  unfold firstTouchCredits at h
  by_cases hcv : j.isConverted = true
  · rw [if_pos hcv] at h
    cases htp : j.touchpoints with
    | nil => rw [htp] at h; simp at h
    | cons first rest =>
        rw [htp] at h
        simp only [Option.some.injEq, Prod.mk.injEq] at h
        rw [← h.1]
        simp
  · rw [if_neg hcv] at h
    simp at h

lemma lastTouchCredits_sum {j : CustomerJourney}
    {cc : List (ChannelType × ℝ)} {pc : List (String × ℝ)}
    (h : lastTouchCredits j = some (cc, pc)) :
    (cc.map Prod.snd).sum = j.conversionValue := by
  unfold lastTouchCredits at h
  by_cases hcv : j.isConverted = true
  · rw [if_pos hcv] at h
    cases htp : j.touchpoints with
    | nil => rw [htp] at h; simp at h
    | cons first rest =>
        rw [htp] at h
        simp only [Option.some.injEq, Prod.mk.injEq] at h
        rw [← h.1]
        simp
  · rw [if_neg hcv] at h
    simp at h

lemma linearCredits_sum {j : CustomerJourney}
    {cc : List (ChannelType × ℝ)} {pc : List (String × ℝ)}
    (h : linearCredits j = some (cc, pc)) :
    (cc.map Prod.snd).sum = j.conversionValue := by
  unfold linearCredits at h
  by_cases hcv : j.isConverted = true
  · rw [if_pos hcv] at h
    cases htp : j.touchpoints with
    | nil => rw [htp] at h; simp at h
    | cons first rest =>
        rw [htp] at h
        simp only [Option.some.injEq, Prod.mk.injEq] at h
        rw [← h.1]
        rw [List.map_map]
        have : (Prod.snd ∘ fun tp : TouchPoint =>
            (tp.channel, j.conversionValue / ((first :: rest).length : ℝ)))
            = fun _ => j.conversionValue / ((first :: rest).length : ℝ) := rfl
        rw [this, sum_map_const_real]
        have hne : (((first :: rest).length : ℕ) : ℝ) ≠ 0 :=
          Nat.cast_ne_zero.2 (by simp)
        field_simp
  · rw [if_neg hcv] at h
    simp at h

lemma timeDecayCredits_sum {decay : ℝ} {j : CustomerJourney}
    {cc : List (ChannelType × ℝ)} {pc : List (String × ℝ)}
    (h : timeDecayCredits decay j = some (cc, pc)) :
    (cc.map Prod.snd).sum = j.conversionValue := by
  unfold timeDecayCredits at h
  by_cases hcv : j.isConverted = true
  · rw [if_pos hcv] at h
    cases htp : j.touchpoints with
    | nil => rw [htp] at h; simp at h
    | cons first rest =>
        rw [htp] at h
        cases hct : j.conversionTimestamp with
        | none => rw [hct] at h; simp at h
        | some ct =>
            rw [hct] at h
            simp only at h
            have hW : 0 < ((first :: rest).map (fun tp =>
                Real.exp (-(decay * ((ct - tp.timestamp : ℤ) : ℝ))))).sum := by
              apply List.sum_pos
              · intro x hx
                obtain ⟨tp, _, rfl⟩ := List.mem_map.1 hx
                exact Real.exp_pos _
              · simp
            rw [if_pos hW] at h
            simp only [Option.some.injEq, Prod.mk.injEq] at h
            rw [← h.1, List.map_map]
            have hcomp : (Prod.snd ∘ fun p : TouchPoint × ℝ =>
                (p.1.channel, j.conversionValue * (p.2 /
                  ((first :: rest).map (fun tp => Real.exp
                    (-(decay * ((ct - tp.timestamp : ℤ) : ℝ))))).sum)))
                = fun p : TouchPoint × ℝ => j.conversionValue * (p.2 /
                  ((first :: rest).map (fun tp => Real.exp
                    (-(decay * ((ct - tp.timestamp : ℤ) : ℝ))))).sum) := rfl
            rw [hcomp, zip_weight_credit_sum, div_self (ne_of_gt hW), mul_one]
  · rw [if_neg hcv] at h
    simp at h

lemma positionBasedCredits_sum {j : CustomerJourney}
    {cc : List (ChannelType × ℝ)} {pc : List (String × ℝ)}
    (h : positionBasedCredits j = some (cc, pc)) :
    (cc.map Prod.snd).sum = j.conversionValue := by
  unfold positionBasedCredits at h
  by_cases hcv : j.isConverted = true
  · rw [if_pos hcv] at h
    rcases htp : j.touchpoints with _ | ⟨t1, _ | ⟨t2, _ | ⟨t3, rest⟩⟩⟩
    · rw [htp] at h; simp at h
    · rw [htp] at h
      simp only [Option.some.injEq, Prod.mk.injEq] at h
      rw [← h.1]
      simp
    · rw [htp] at h
      simp only [Option.some.injEq, Prod.mk.injEq] at h
      rw [← h.1]
      simp
      ring
    · rw [htp] at h
      simp only [Option.some.injEq, Prod.mk.injEq] at h
      rw [← h.1]
      simp only [List.map_cons, List.map_append, List.sum_cons,
        List.sum_append, List.map_map]
      have hcomp : (Prod.snd ∘ fun tp : TouchPoint =>
          (tp.channel, j.conversionValue * 0.2 /
            ((t2 :: t3 :: rest).dropLast.length : ℝ)))
          = fun _ : TouchPoint => j.conversionValue * 0.2 /
            ((t2 :: t3 :: rest).dropLast.length : ℝ) := rfl
      rw [hcomp, sum_map_const_real]
      have hlen : ((t2 :: t3 :: rest).dropLast.length : ℝ)
          = (rest.length : ℝ) + 1 := by
        rw [List.length_dropLast]
        push_cast [List.length_cons]
        ring
      rw [hlen]
      have hne : (rest.length : ℝ) + 1 ≠ 0 := by positivity
      field_simp
      ring
  · rw [if_neg hcv] at h
    simp at h

lemma shapleyCredits_sum {j : CustomerJourney}
    {cc : List (ChannelType × ℝ)} {pc : List (String × ℝ)}
    (htp : j.touchpoints ≠ [])
    (h : shapleyCredits j = some (cc, pc)) :
    (cc.map Prod.snd).sum = j.conversionValue := by
  unfold shapleyCredits at h
  by_cases hcv : j.isConverted = true
  · rw [if_pos hcv] at h
    simp only [Option.some.injEq, Prod.mk.injEq] at h
    rw [← h.1, List.map_map]
    have hcomp : (Prod.snd ∘ fun c : ChannelType =>
        (c, j.conversionValue / (j.uniqueChannels.length : ℝ)))
        = fun _ : ChannelType =>
          j.conversionValue / (j.uniqueChannels.length : ℝ) := rfl
    rw [hcomp, sum_map_const_real]
    have hu : j.uniqueChannels ≠ [] := by
      unfold CustomerJourney.uniqueChannels
      simp [List.dedup_eq_nil, htp]
    have hne : ((j.uniqueChannels.length : ℕ) : ℝ) ≠ 0 :=
      Nat.cast_ne_zero.2 (fun h0 => hu (List.length_eq_zero.1 h0))
    field_simp
  · rw [if_neg hcv] at h
    simp at h

lemma firstTouchCredits_isSome {j : CustomerJourney}
    (hcv : j.isConverted = true) (htp : j.touchpoints ≠ []) :
    (firstTouchCredits j).isSome := by
  unfold firstTouchCredits
  rw [if_pos hcv]
  cases h : j.touchpoints with
  | nil => exact absurd h htp
  | cons first rest => simp

lemma lastTouchCredits_isSome {j : CustomerJourney}
    (hcv : j.isConverted = true) (htp : j.touchpoints ≠ []) :
    (lastTouchCredits j).isSome := by
  unfold lastTouchCredits
  rw [if_pos hcv]
  cases h : j.touchpoints with
  | nil => exact absurd h htp
  | cons first rest => simp

lemma linearCredits_isSome {j : CustomerJourney}
    (hcv : j.isConverted = true) (htp : j.touchpoints ≠ []) :
    (linearCredits j).isSome := by
  unfold linearCredits
  rw [if_pos hcv]
  cases h : j.touchpoints with
  | nil => exact absurd h htp
  | cons first rest => simp

lemma timeDecayCredits_isSome {decay : ℝ} {j : CustomerJourney}
    (hcv : j.isConverted = true) (htp : j.touchpoints ≠ [])
    (hts : j.conversionTimestamp.isSome = true) :
    (timeDecayCredits decay j).isSome := by
  unfold timeDecayCredits
  rw [if_pos hcv]
  cases h : j.touchpoints with
  | nil => exact absurd h htp
  | cons first rest =>
      cases hct : j.conversionTimestamp with
      | none => rw [hct] at hts; simp at hts
      | some ct =>
          simp only
          by_cases hW : 0 < ((first :: rest).map (fun tp =>
              Real.exp (-(decay * ((ct - tp.timestamp : ℤ) : ℝ))))).sum
          · rw [if_pos hW]; rfl
          · rw [if_neg hW]; rfl

lemma positionBasedCredits_isSome {j : CustomerJourney}
    (hcv : j.isConverted = true) (htp : j.touchpoints ≠ []) :
    (positionBasedCredits j).isSome := by
  unfold positionBasedCredits
  rw [if_pos hcv]
  rcases h : j.touchpoints with _ | ⟨t1, _ | ⟨t2, _ | ⟨t3, rest⟩⟩⟩
  · exact absurd h htp
  · simp
  · simp
  · simp

lemma shapleyCredits_isSome {j : CustomerJourney}
    (hcv : j.isConverted = true) : (shapleyCredits j).isSome := by
  unfold shapleyCredits
  rw [if_pos hcv]
  rfl

/-- Counterexample to claim C1: on a non-empty journey list with a
converted journey in which one channel occurs in every journey, the
simplified Markov removal-effect heuristic produces an empty
channel-credit dictionary — every channel is skipped because no journey
lacks it — so the credits sum to 0, not to 1 (±1e-9). -/
theorem markov_attribution_sum_cex :
    soloJourneys ≠ [] ∧
      (∃ j ∈ soloJourneys, j.isConverted = true) ∧
      chSum (markovChainAttribution soloJourneys).channelAttribution = 0 ∧
      ¬ |chSum (markovChainAttribution soloJourneys).channelAttribution - 1|
          ≤ 1e-9 := by
  have hraw : markovChannelRaw soloJourneys = fun _ => none := by
    funext c
    cases c <;> exact if_neg (by decide)
  have htot : markovTotalEffect soloJourneys = 0 := by
    unfold markovTotalEffect
    rw [hraw, chSum_none]
  have hch : (markovChainAttribution soloJourneys).channelAttribution
      = fun _ => none := by
    unfold markovChainAttribution
    simp only [htot, lt_irrefl, if_false]
    exact hraw
  rw [hch, chSum_none]
  refine ⟨by simp [soloJourneys], ⟨soloJourney, List.mem_singleton_self _,
    rfl⟩, rfl, by norm_num⟩

/-- Claim C1 (amended): for every journey list satisfying the data-model
invariant (each converted journey has a positive conversion value, a
conversion timestamp and at least one touchpoint) and containing at
least one converted journey, the channel-credit shares of first-touch,
last-touch, linear, time-decay (any decay factor), position-based and
simplified-Shapley attribution sum to exactly 1; the simplified Markov
removal-effect shares sum to 1 when the total removal effect is
positive (they sum to 0 when, e.g., some channel occurs in every
journey). -/
theorem attribution_shares_sum_to_one (js : List CustomerJourney)
    (decay : ℝ)
    (hinv : ∀ j ∈ js, j.isConverted = true →
      0 < j.conversionValue ∧ j.conversionTimestamp.isSome = true ∧
        j.touchpoints ≠ [])
    (hconv : ∃ j ∈ js, j.isConverted = true) :
    chSum (firstTouchAttribution js).channelAttribution = 1 ∧
      chSum (lastTouchAttribution js).channelAttribution = 1 ∧
      chSum (linearAttribution js).channelAttribution = 1 ∧
      chSum (timeDecayAttribution js decay).channelAttribution = 1 ∧
      chSum (positionBasedAttribution js).channelAttribution = 1 ∧
      chSum (shapleyValueAttribution js).channelAttribution = 1 ∧
      (0 < markovTotalEffect js →
        chSum (markovChainAttribution js).channelAttribution = 1) := by
  obtain ⟨j0, hj0, hcv0⟩ := hconv
  obtain ⟨hv0, hts0, htp0⟩ := hinv j0 hj0 hcv0
  refine ⟨?_, ?_, ?_, ?_, ?_, ?_, ?_⟩
  · unfold firstTouchAttribution
    exact finish_chSum _ _ _ _ _
      (attrLoop_chSum firstTouchCredits js emptyAcc
        (by simp [emptyAcc, chSum_none])
        (fun j _ cc pc h => firstTouchCredits_sum h))
      (attrLoop_total_pos firstTouchCredits js
        (fun j hj hs => (hinv j hj (firstTouchCredits_converted hs)).1)
        ⟨j0, hj0, firstTouchCredits_isSome hcv0 htp0⟩ emptyAcc rfl)
  · unfold lastTouchAttribution
    exact finish_chSum _ _ _ _ _
      (attrLoop_chSum lastTouchCredits js emptyAcc
        (by simp [emptyAcc, chSum_none])
        (fun j _ cc pc h => lastTouchCredits_sum h))
      (attrLoop_total_pos lastTouchCredits js
        (fun j hj hs => (hinv j hj (lastTouchCredits_converted hs)).1)
        ⟨j0, hj0, lastTouchCredits_isSome hcv0 htp0⟩ emptyAcc rfl)
  · unfold linearAttribution
    exact finish_chSum _ _ _ _ _
      (attrLoop_chSum linearCredits js emptyAcc
        (by simp [emptyAcc, chSum_none])
        (fun j _ cc pc h => linearCredits_sum h))
      (attrLoop_total_pos linearCredits js
        (fun j hj hs => (hinv j hj (linearCredits_converted hs)).1)
        ⟨j0, hj0, linearCredits_isSome hcv0 htp0⟩ emptyAcc rfl)
  · unfold timeDecayAttribution
    exact finish_chSum _ _ _ _ _
      (attrLoop_chSum (timeDecayCredits decay) js emptyAcc
        (by simp [emptyAcc, chSum_none])
        (fun j _ cc pc h => timeDecayCredits_sum h))
      (attrLoop_total_pos (timeDecayCredits decay) js
        (fun j hj hs => (hinv j hj (timeDecayCredits_converted hs)).1)
        ⟨j0, hj0, timeDecayCredits_isSome hcv0 htp0 hts0⟩ emptyAcc rfl)
  · unfold positionBasedAttribution
    exact finish_chSum _ _ _ _ _
      (attrLoop_chSum positionBasedCredits js emptyAcc
        (by simp [emptyAcc, chSum_none])
        (fun j _ cc pc h => positionBasedCredits_sum h))
      (attrLoop_total_pos positionBasedCredits js
        (fun j hj hs => (hinv j hj (positionBasedCredits_converted hs)).1)
        ⟨j0, hj0, positionBasedCredits_isSome hcv0 htp0⟩ emptyAcc rfl)
  · have h1 : chSum (attrLoop shapleyCredits
        ⟨fun c => if c ∈ allChannels js then some 0 else none,
         fun _ => none, 0⟩ js).ch
        = (attrLoop shapleyCredits
            ⟨fun c => if c ∈ allChannels js then some 0 else none,
             fun _ => none, 0⟩ js).total :=
      attrLoop_chSum shapleyCredits js _
        (by simp [chSum_zero_seed])
        (fun j hj cc pc h =>
          shapleyCredits_sum
            ((hinv j hj (shapleyCredits_converted (by rw [h]; rfl))).2.2) h)
    have h2 : 0 < (attrLoop shapleyCredits
        ⟨fun c => if c ∈ allChannels js then some 0 else none,
         fun _ => none, 0⟩ js).total :=
      attrLoop_total_pos shapleyCredits js
        (fun j hj hs => (hinv j hj (shapleyCredits_converted hs)).1)
        ⟨j0, hj0, shapleyCredits_isSome hcv0⟩ _ rfl
    unfold shapleyValueAttribution
    simp only
    rw [if_pos h2, chSum_dscale, h1, div_self (ne_of_gt h2)]
  · intro hpos
    unfold markovChainAttribution
    simp only [hpos, if_true]
    rw [chSum_dscale]
    have h := ne_of_gt hpos
    unfold markovTotalEffect at h ⊢
    exact div_self h

/-- Witness for the amended C1 at a single converted single-channel
journey (time-decay factor 0.1): the six per-journey heuristics sum to
1, and the Markov conjunct holds vacuously (its total removal effect is
0 there, which is what the counterexample exhibits). -/
theorem attribution_shares_sum_to_one_witness :
    chSum (firstTouchAttribution soloJourneys).channelAttribution = 1 ∧
      chSum (lastTouchAttribution soloJourneys).channelAttribution = 1 ∧
      chSum (linearAttribution soloJourneys).channelAttribution = 1 ∧
      chSum (timeDecayAttribution soloJourneys (1/10)).channelAttribution
        = 1 ∧
      chSum (positionBasedAttribution soloJourneys).channelAttribution = 1 ∧
      chSum (shapleyValueAttribution soloJourneys).channelAttribution = 1 ∧
      (0 < markovTotalEffect soloJourneys →
        chSum (markovChainAttribution soloJourneys).channelAttribution
          = 1) :=
  attribution_shares_sum_to_one soloJourneys (1/10)
    (by
      intro j hj hcv
      simp only [soloJourneys, List.mem_singleton] at hj
      subst hj
      exact ⟨by norm_num [soloJourney], rfl, by simp [soloJourney]⟩)
    ⟨soloJourney, List.mem_singleton_self _, rfl⟩

/-! ### C5: time-decay attribution with decay factor 0 is linear -/

lemma timeDecayCredits_zero {j : CustomerJourney}
    (h : j.isConverted = true → j.touchpoints ≠ [] →
      j.conversionTimestamp.isSome = true) :
    timeDecayCredits 0 j = linearCredits j := by
  unfold timeDecayCredits linearCredits
  by_cases hcv : j.isConverted = true
  · rw [if_pos hcv, if_pos hcv]
    cases htp : j.touchpoints with
    | nil => rfl
    | cons first rest =>
        cases hct : j.conversionTimestamp with
        | none =>
            exfalso
            have hs := h hcv (by rw [htp]; simp)
            rw [hct] at hs
            simp at hs
        | some ct =>
            simp only
            have hw : (fun tp : TouchPoint =>
                Real.exp (-((0 : ℝ) * ((ct - tp.timestamp : ℤ) : ℝ))))
                = fun _ : TouchPoint => (1 : ℝ) := by
              funext tp
              norm_num
            rw [hw]
            have hsum : ((first :: rest).map
                (fun _ : TouchPoint => (1 : ℝ))).sum
                = (((first :: rest).length : ℕ) : ℝ) := by
              rw [sum_map_const_real, mul_one]
            rw [hsum]
            rw [if_pos (by exact_mod_cast Nat.succ_pos rest.length)]
            rw [zip_one_credit_map, zip_one_credit_map]
  · rw [if_neg hcv, if_neg hcv]

lemma attrLoop_congr (f g : CustomerJourney →
    Option (List (ChannelType × ℝ) × List (String × ℝ))) :
    ∀ (js : List CustomerJourney), (∀ j ∈ js, f j = g j) →
      ∀ init, attrLoop f init js = attrLoop g init js := by
  intro js
  induction js with
  | nil => intro _ _; rfl
  | cons j js ih =>
      intro h init
      have hstep : attrStep f init j = attrStep g init j := by
        unfold attrStep
        rw [h j (List.mem_cons_self _ _)]
      have h1 : attrLoop f init (j :: js)
          = attrLoop f (attrStep f init j) js := rfl
      have h2 : attrLoop g init (j :: js)
          = attrLoop g (attrStep g init j) js := rfl
      rw [h1, h2, hstep]
      exact ih (fun x hx => h x (List.mem_cons_of_mem _ hx)) _

/-- Claim C5: for every journey list in which each converted journey
with touchpoints has a conversion timestamp (the data-model invariant),
time-decay attribution with decay factor 0 yields the same
channel-attribution and campaign-attribution mappings as linear
attribution — with weight `exp(0) = 1` on every touchpoint, each
touchpoint's credit is `conversion_value / touchpoint_count`. -/
theorem time_decay_zero_equals_linear (js : List CustomerJourney)
    (hts : ∀ j ∈ js, j.isConverted = true → j.touchpoints ≠ [] →
      j.conversionTimestamp.isSome = true) :
    (timeDecayAttribution js 0).channelAttribution
        = (linearAttribution js).channelAttribution ∧
      (timeDecayAttribution js 0).campaignAttribution
        = (linearAttribution js).campaignAttribution := by
  have hloop : attrLoop (timeDecayCredits 0) emptyAcc js
      = attrLoop linearCredits emptyAcc js :=
    attrLoop_congr _ _ js (fun j hj => timeDecayCredits_zero (hts j hj))
      emptyAcc
  unfold timeDecayAttribution linearAttribution
  rw [hloop]
  exact ⟨rfl, rfl⟩

/-- Witness for C5 at a converted two-touchpoint journey. -/
theorem time_decay_zero_equals_linear_witness :
    (timeDecayAttribution twoChannelJourneys 0).channelAttribution
        = (linearAttribution twoChannelJourneys).channelAttribution ∧
      (timeDecayAttribution twoChannelJourneys 0).campaignAttribution
        = (linearAttribution twoChannelJourneys).campaignAttribution :=
  time_decay_zero_equals_linear twoChannelJourneys
    (by
      intro j hj _ _
      simp only [twoChannelJourneys, List.mem_singleton] at hj
      subst hj
      rfl)

end AIMarketing
